import Mathlib

/-!
# Verification of the snapshot-seeding orchestrator (`src/scripts/seed.py`)

A shallow embedding of the seeding subsystem of `seed.py`: the retry/backoff
HTTP client (`fetch_with_retry`), the session lifecycle helpers, the mutation
batch applier (`seed_full_data` and friends), the search-index coordinator
(`poll_index_creation_status`), the `create_seed` snapshot-creation request
with its "running sessions" recovery path, and the recursive snapshot resolver
(`ensure_snapshot_exists`).

Modelling conventions:
* The asynchronous network world is an oracle (`Env`): a response function for
  each outbound HTTP transport attempt (indexed by a global attempt counter),
  a response function for each `kubectl` invocation, and the file system.
* Computations live in the monad `M α = STr → Except Err α × STr`; the state
  carries the oracle counters, the trace of outbound requests and sleeps
  (`events`), the `visited` / `processed_snapshots` sets (mutable sets passed
  by reference in the Python source behave exactly like threaded state in a
  single-threaded run), and the `session_id` / `session_ended` locals of
  `ensure_snapshot_exists` (Python locals survive into the `finally` block,
  which state fields model).
* `asyncio.sleep` is modelled by an event recording the sleep in milliseconds;
  real time is not modelled.
* Python exceptions become `Err` values; every `raise` site of the source is
  mapped to a dedicated constructor.  `try`/`except Exception` is `M.pyCatch`;
  `try`/`finally` is `M.tryFinally`.  The fuel-exhaustion error `Err.fuelOut`
  is an artifact of embedding unbounded loops and recursion; it corresponds to
  no Python exception, so `M.pyCatch` does not catch it.
* JSON documents are modelled by `JVal`; numbers, booleans and null, whose
  contents the seeding logic never inspects beyond truthiness, are collapsed
  into `JVal.other` carrying only their truthiness.
* File paths are lists of components; `Path.resolve()` is `resolvePth`
  (lexical `..`/`.` normalisation; symbolic links are not modelled).
-/

/-! ## JSON values -/

/-- JSON value, as far as the seeding logic inspects it.  `other` stands for
numbers, booleans and null; the seeding code only ever uses their truthiness. -/
inductive JVal where
  | str (s : String)
  | arr (elems : List JVal)
  | obj (fields : List (String × JVal))
  | other (truthy : Bool)

/-- Python `d.get(k)` on a dict (first binding wins; JSON objects from
`json.load` have unique keys).  On a non-object this returns `none`
(Python would raise `AttributeError`; that corner is not exercised here). -/
def jlookup : JVal → String → Option JVal
  | .obj fields, k => fields.lookup k
  | _, _ => none

/-- Python `v == "lit"` for a JSON value: true only for the equal string. -/
def JVal.isStrEq : JVal → String → Bool
  | .str s, t => s = t
  | _, _ => false

/-- Python truthiness of a JSON value. -/
def JVal.jTruthy : JVal → Bool
  | .str s => s ≠ ""
  | .arr l => !l.isEmpty
  | .obj f => !f.isEmpty
  | .other b => b

/-! ## Character-level string helpers

Executable (kernel-reducible) counterparts of the Python string operations
used by `seed.py`, defined over `String.data`. -/

/-- Split a character list at every occurrence of `sep` (empty segments are
kept, as in Python `str.split(sep)` with an explicit separator). -/
def splitOnChar (l : List Char) (sep : Char) : List (List Char) :=
  l.foldr
    (fun c acc =>
      match acc with
      | [] => [[c]]
      | g :: gs => if c = sep then [] :: g :: gs else (c :: g) :: gs)
    [[]]

/-- Python `s.split(sep)` for a one-character separator. -/
def splitStr (s : String) (sep : Char) : List String :=
  (splitOnChar s.data sep).map (fun l => ⟨l⟩)

/-- Python `re.sub` on single characters / `str.translate`: map every
character. -/
def mapStr (f : Char → Char) (s : String) : String :=
  ⟨s.data.map f⟩

/-- ASCII lower-casing of one character. -/
def lowerC (c : Char) : Char :=
  if 'A' ≤ c ∧ c ≤ 'Z' then Char.ofNat (c.toNat + 32) else c

/-- Python `str.strip` whitespace. -/
def isSpaceC (c : Char) : Bool :=
  c = ' ' || c = '\t' || c = '\n' || c = '\r'

/-- Python `s.strip().lower()`. -/
def trimLower (s : String) : String :=
  ⟨((s.data.dropWhile isSpaceC).reverse.dropWhile isSpaceC).reverse.map lowerC⟩

/-- `needle` occurs at the start of `hay`. -/
def isPrefixCh : List Char → List Char → Bool
  | [], _ => true
  | _ :: _, [] => false
  | a :: as, b :: bs => a = b && isPrefixCh as bs

/-- `needle` occurs somewhere in `hay`. -/
def containsSub (hay needle : List Char) : Bool :=
  match hay with
  | [] => isPrefixCh needle []
  | _ :: rest => isPrefixCh needle hay || containsSub rest needle

/-! ## Paths

A path is its list of components, e.g. `/data/figma/A.json` is
`["data", "figma", "A.json"]`.  Components `".."`, `"."` and `""` may occur in
unresolved paths (`seed.py` builds such paths from `Path.cwd() / "../app/..."`
mappings); `resolvePth` normalises them away, like `Path.resolve()`. -/

abbrev Pth := List String

/-- `Path(p).resolve()`: lexical normalisation of `..`, `.` and empty
components (symlinks are not modelled; `..` at the root is dropped, as on
POSIX). -/
def resolveStep (acc : Pth) (c : String) : Pth :=
  if c = ".." then acc.dropLast
  else if c = "." ∨ c = "" then acc
  else acc ++ [c]

def resolvePth (p : Pth) : Pth :=
  p.foldl resolveStep []

/-- `Path(...).parent.name`: name of the parent directory (empty at the root),
on a path whose last component is the file name. -/
def parentNameOf (p : Pth) : String :=
  (p.dropLast.getLast?).getD ""

/-- `Path(...).stem`: file name without its last suffix (`"a.b.json" ↦ "a.b"`,
no-op when there is no dot or only a leading dot, as in `pathlib`). -/
def stemOf (s : String) : String :=
  let parts := splitStr s '.'
  if parts.length ≤ 1 then s
  else if parts.head? = some "" ∧ parts.length = 2 then s
  else String.intercalate "." parts.dropLast

/-- Render a path the way `str(Path(...))` would, for error messages. -/
def renderPth (p : Pth) : String :=
  "/" ++ String.intercalate "/" p

/-! ## Pure helpers of `seed.py` -/

/-- Structural worker for `chunk_array`: the first argument is fuel (one unit
per chunk; the list loses `size ≥ 1` elements per chunk, so fuel
`l.length` always suffices and the fuel-zero case is unreachable from the
wrapper). -/
def chunk_go (size : Nat) : Nat → List α → List (List α)
  | _, [] => []
  | 0, _ :: _ => []
  | fuel + 1, x :: xs =>
    match size with
    | 0 => []
    | s + 1 => ((x :: xs).take (s + 1)) :: chunk_go size fuel (xs.drop s)

/-- `chunk_array` (seed.py line 98): split a list into chunks of `size`
(`[array[i : i + size] for i in range(0, len(array), size)]`).
Python's `range(0, len(array), size)` raises for `size = 0`; the script only
ever calls it with sizes 5 and 20, and we return `[]` in that (dead) corner. -/
def chunk_array (l : List α) (size : Nat) : List (List α) :=
  chunk_go size l.length l

/-- `is_diff_seed_file` (line 103): `data.get("type") == "diff"`. -/
def is_diff_seed_file (data : JVal) : Bool :=
  match jlookup data "type" with
  | some v => v.isStrEq "diff"
  | none => false

/-- Python truthiness of an optional string (`None` and `""` are falsy). -/
def truthyOptStr : Option String → Bool
  | none => false
  | some s => s ≠ ""

/-- `calculate_snapshot_name` (line 108): `{folder}-{stem}` with `_ → -`;
`folder` is the `app_context` when truthy, else the resolved parent folder. -/
def calculate_snapshot_name (json_path : Pth) (app_context : Option String) : String :=
  let path := resolvePth json_path
  let filename := stemOf ((path.getLast?).getD "")
  let folder :=
    match app_context with
    | some a => if a = "" then parentNameOf path else a
    | none => parentNameOf path
  mapStr (fun c => if c = '_' then '-' else c) (folder ++ "-" ++ filename)

/-- `APP_INITIAL_DATA_MAPPING` (line 19). -/
def APP_INITIAL_DATA_MAPPING : List (String × String) :=
  [("xiaohongshu", "../xiaohongshu/app/initial_data.json"),
   ("weibo", "../weibo/app/initial_data.json"),
   ("jd", "../jd/app/initial_data.json"),
   ("notion", "../notion/app/initial_data.json"),
   ("figma", "../figma/app/initial_data.json"),
   ("canva", "../canva/app/initial_data.json")]

/-- `APP_INDICES_MAPPING` (line 28). -/
def APP_INDICES_MAPPING : List (String × String) :=
  [("xiaohongshu", "../xiaohongshu/app/indices.json"),
   ("weibo", "../weibo/app/indices.json"),
   ("jd", "../jd/app/indices.json"),
   ("notion", "../notion/app/indices.json")]

/-! ## Errors

One constructor per `raise` site of the source (plus `fuelOut`, an embedding
artifact for unbounded loops / unbounded recursion depth, corresponding to no
Python exception). -/

inductive Err where
  /-- `RuntimeError(f"Circular dependency detected: {full_path}")` (line 802). -/
  | circular (path : String)
  /-- `FileNotFoundError` from `open(full_path)` (line 853). -/
  | fileNotFound (path : String)
  /-- `KeyError` from a `d[k]` lookup on a parsed JSON body. -/
  | keyError (key : String)
  /-- `ValueError` from `resolve_base_file_path` (line 134). -/
  | valueError (folder : String)
  /-- `TypeError`-like failures on malformed JSON shapes. -/
  | typeErr (what : String)
  /-- `RuntimeError(f"Failed to start session: ...")` (line 299). -/
  | sessionStart (status : Nat)
  /-- `RuntimeError(f"Failed to get status: ...")` (lines 325, 357). -/
  | statusFail (status : Nat)
  /-- `RuntimeError(f"Unexpected status: ...")` (line 367). -/
  | unexpectedStatus
  /-- `RuntimeError(f"Transaction failed: ...")` (lines 389, 408). -/
  | transactionFail (status : Nat)
  /-- `RuntimeError(f"Failed to create Meilisearch indices: ...")` (line 536). -/
  | indexCreateFail (status : Nat)
  /-- `RuntimeError(f"Index creation failed: {collections}")` (line 475). -/
  | indexFailed (collections : String)
  /-- `RuntimeError(f"Index creation did not complete within ...")` (line 488). -/
  | indexTimeout (timeout : Nat)
  /-- `RuntimeError(f"Session still LOCKED after ...")` (line 337). -/
  | lockedTimeout (timeout : Nat)
  /-- `RuntimeError(f"Failed to create seed: ...")` (line 675). -/
  | seedCreateFail (status : Nat) (text : String)
  /-- `RuntimeError(f"Snapshot ... was not created after 90 seconds")` (line 671). -/
  | seedNotCreated
  /-- `RuntimeError(f"Base snapshot ... not ready after 300 seconds")` (line 906). -/
  | baseNotReady (name : String)
  /-- `RuntimeError(f"Failed to end session: ...")` (line 768). -/
  | sessionStop (status : Nat)
  /-- `subprocess.CalledProcessError` from `run_kubectl(..., check=True)`. -/
  | kubectlFail
  /-- Transport-level exception surfaced by the HTTP client (httpx errors). -/
  | transport (msg : String)
  /-- Embedding artifact: loop/recursion fuel exhausted (no Python analogue). -/
  | fuelOut
deriving DecidableEq

/-! ## Requests, responses, events -/

/-- One outbound HTTP request of the orchestrator API (§6 of the spec). -/
inductive HttpReq where
  /-- `POST {base}` with optional `snapshot_name` body (`start_session`). -/
  | startSession (snapshot_name : Option String)
  /-- `GET {base}/{id}/status`. -/
  | status (sid : String)
  /-- `POST {base}/{id}/transaction` with the given JSON body. -/
  | transaction (sid : String) (body : JVal)
  /-- `POST {base}/{id}/create-search-index` with the given JSON body. -/
  | createSearchIndex (sid : String) (body : JVal)
  /-- `GET {base}/{id}/search-index-status`. -/
  | searchIndexStatus (sid : String)
  /-- `POST {base}/create_seed` with `{session_id, name}`. -/
  | createSeed (sid : String) (name : String)
  /-- `POST {base}/{id}/stop`. -/
  | stop (sid : String)

/-- One `kubectl` invocation. -/
inductive KubeReq where
  /-- `kubectl get volumesnapshot {name} -o name` (`snapshot_exists`). -/
  | getSnap (name : String)
  /-- `kubectl get volumesnapshot {name} -o jsonpath={.status.readyToUse}`. -/
  | getReady (name : String)
  /-- `kubectl delete volumesnapshot {name}`. -/
  | deleteSnap (name : String)
deriving DecidableEq

/-- An HTTP response: status code, parsed JSON body (`response.json()`), and
raw text (`response.text`). -/
structure HttpResp where
  status : Nat
  body : JVal
  text : String

/-- `httpx.Response.is_success`: status in `[200, 300)`. -/
def HttpResp.is_success (r : HttpResp) : Bool :=
  200 ≤ r.status && r.status < 300

/-- Result of one `kubectl` run: return code and stdout. -/
structure KubeResp where
  rc : Nat
  stdout : String

/-- Trace event: every outbound effect, in program order. -/
inductive Event where
  /-- One HTTP transport attempt (each retry is a separate event). -/
  | http (req : HttpReq)
  /-- A fire-and-forget HTTP post, submitted without awaiting the response. -/
  | httpFF (req : HttpReq)
  /-- One `kubectl` invocation. -/
  | kube (req : KubeReq)
  /-- `asyncio.sleep`, recorded in milliseconds. -/
  | sleepMs (ms : Nat)

/-- Whether an HTTP request mutates platform state (as opposed to the
read-only `status` / `search-index-status` GETs). -/
def HttpReq.isWriteReq : HttpReq → Bool
  | .startSession _ => true
  | .transaction _ _ => true
  | .createSearchIndex _ _ => true
  | .createSeed _ _ => true
  | .stop _ => true
  | .status _ => false
  | .searchIndexStatus _ => false

/-- Whether an event is a platform write (mutating HTTP call, fire-and-forget
post, or snapshot deletion).  `getSnap`/`getReady` kubectl reads, status GETs
and sleeps are not writes. -/
def Event.isWrite : Event → Bool
  | .http r => r.isWriteReq
  | .httpFF _ => true
  | .kube (.deleteSnap _) => true
  | .kube (.getSnap _) => false
  | .kube (.getReady _) => false
  | .sleepMs _ => false

/-- Number of platform-write events in a trace. -/
def writeCount (evs : List Event) : Nat :=
  (evs.filter Event.isWrite).length

/-- The `name` arguments of the `create_seed` requests of a trace, in order. -/
def createSeedNames (evs : List Event) : List String :=
  evs.filterMap fun e =>
    match e with
    | .http (.createSeed _ n) => some n
    | _ => none

/-- Number of `stop` requests for a given session id in a trace. -/
def stopCountFor (evs : List Event) (sid : String) : Nat :=
  (evs.filter fun e =>
    match e with
    | .http (.stop s) => s = sid
    | _ => false).length

/-- Number of fire-and-forget `create_seed` posts in a trace. -/
def ffSeedCount (evs : List Event) : Nat :=
  (evs.filter fun e =>
    match e with
    | .httpFF (.createSeed _ _) => true
    | _ => false).length

/-- The `kubectl` requests of a trace that name the given snapshot. -/
def kubeReqsFor (evs : List Event) (name : String) : List KubeReq :=
  evs.filterMap fun e =>
    match e with
    | .kube (.getSnap n) => if n = name then some (.getSnap n) else none
    | .kube (.getReady n) => if n = name then some (.getReady n) else none
    | .kube (.deleteSnap n) => if n = name then some (.deleteSnap n) else none
    | _ => none

/-- Number of HTTP transport attempts in a trace. -/
def httpAttemptCount (evs : List Event) : Nat :=
  (evs.filter fun e =>
    match e with
    | .http _ => true
    | _ => false).length

/-- The sleep durations (ms) of a trace, in order. -/
def sleepsOf (evs : List Event) : List Nat :=
  evs.filterMap fun e =>
    match e with
    | .sleepMs d => some d
    | _ => none

/-! ## The environment oracle and the monad -/

/-- The world outside the script: current working directory, file system,
and deterministic response oracles for HTTP transport attempts and kubectl
invocations (each indexed by a global call counter, so the "platform" may
answer differently over time). -/
structure Env where
  cwd : Pth
  fs : Pth → Option JVal
  http : Nat → HttpReq → Except String HttpResp
  kube : Nat → KubeReq → KubeResp

/-- Mutable state threaded through a run: oracle counters, the event trace,
the resolver's `visited` and `processed_snapshots` sets, and the
`session_id` / `session_ended` locals of `ensure_snapshot_exists`
(locals survive into `finally`, so they live in the state). -/
structure STr where
  httpN : Nat
  kubeN : Nat
  events : List Event
  visited : List Pth
  processed : List String
  curSess : Option String
  curEnded : Bool

/-- The empty starting state. -/
def STr.init : STr :=
  ⟨0, 0, [], [], [], none, false⟩

/-- The computation monad: state plus Python-style exceptions.  Exceptions
preserve the state accumulated so far (side effects before a `raise` are not
rolled back). -/
def M (α : Type) : Type := STr → Except Err α × STr

instance : Monad M where
  pure a := fun s => (.ok a, s)
  bind x f := fun s =>
    match x s with
    | (.ok a, s') => f a s'
    | (.error e, s') => (.error e, s')

/-- Raise a Python exception. -/
def M.throw (e : Err) : M α := fun s => (.error e, s)

/-- Read the state. -/
def M.get : M STr := fun s => (.ok s, s)

/-- Update the state. -/
def M.modify (f : STr → STr) : M Unit := fun s => (.ok (), f s)

/-- `try ... except Exception as e: ...`: catches every Python exception.
`Err.fuelOut` is not a Python exception (it is the embedding's loop fuel),
so it is not caught. -/
def M.pyCatch (x : M α) (h : Err → M α) : M α := fun s =>
  match x s with
  | (.ok a, s') => (.ok a, s')
  | (.error e, s') => if e = .fuelOut then (.error e, s') else h e s'

/-- `try ... finally ...`.  The cleanup runs on both exits; if the cleanup
itself raises, its exception replaces the original one (as in Python). -/
def M.tryFinally (x : M α) (fin : M Unit) : M α := fun s =>
  match x s with
  | (r, s') =>
    match fin s' with
    | (.ok _, s'') => (r, s'')
    | (.error e, s'') => (.error e, s'')

/-- Append an event to the trace. -/
def M.emit (e : Event) : M Unit := fun s =>
  (.ok (), { s with events := s.events ++ [e] })

/-- `await asyncio.sleep(ms / 1000)`: recorded in the trace, no other effect. -/
def M.sleep (ms : Nat) : M Unit := M.emit (.sleepMs ms)

/-- Issue one HTTP transport attempt: consumes the next oracle answer and
records the attempt.  Returns the transport outcome (a response, or a
transport-level exception message). -/
def httpAttempt (env : Env) (req : HttpReq) : M (Except String HttpResp) := fun s =>
  (.ok (env.http s.httpN req),
   { s with httpN := s.httpN + 1, events := s.events ++ [.http req] })

/-- Run one `kubectl` command: consumes the next oracle answer and records
the invocation. -/
def kubeCall (env : Env) (req : KubeReq) : M KubeResp := fun s =>
  (.ok (env.kube s.kubeN req),
   { s with kubeN := s.kubeN + 1, events := s.events ++ [.kube req] })

/-- Add to a Python `set` modelled as a duplicate-free list. -/
def setAdd (l : List String) (x : String) : List String :=
  if x ∈ l then l else l ++ [x]

/-! ## Retry/backoff HTTP client (`fetch_with_retry`, seed.py lines 220-273) -/

/-- `RetryOptions` (line 85). -/
structure RetryOptions where
  max_retries : Nat
  base_delay_ms : Nat
  max_delay_ms : Nat

/-- `DEFAULT_RETRY_OPTIONS` (line 91). -/
def DEFAULT_RETRY_OPTIONS : RetryOptions := ⟨3, 1000, 10000⟩

/-- The retry loop of `fetch_with_retry` (lines 236-267), one fuel unit per
loop iteration; the fuel-zero case is the code after the loop (lines 269-273),
unreachable when entered with fuel `max_retries + 1` since the last iteration
always returns or re-raises.  `lastResp` / `lastErr` are the `last_response` /
`last_error` locals. -/
def fetch_go (env : Env) (req : HttpReq) (maxR base maxD : Nat) :
    Nat → Nat → Option HttpResp → Option String → M HttpResp
  | 0, _, lastResp, lastErr =>
    match lastResp with
    | some r => pure r
    | none =>
      match lastErr with
      | some e => M.throw (.transport e)
      | none => M.throw (.transport "Unexpected retry failure")
  | fuel + 1, attempt, lastResp, lastErr => do
    let tr ← httpAttempt env req
    match tr with
    | .ok response =>
      if response.is_success then pure response
      else
        let should_retry := decide (500 ≤ response.status) || decide (response.status = 429)
        if !should_retry || attempt == maxR then pure response
        else do
          M.sleep (min (base * 2 ^ attempt) maxD)
          fetch_go env req maxR base maxD fuel (attempt + 1) (some response) lastErr
    | .error e =>
      if attempt == maxR then M.throw (.transport e)
      else do
        M.sleep (min (base * 2 ^ attempt) maxD)
        fetch_go env req maxR base maxD fuel (attempt + 1) lastResp (some e)

/-- `fetch_with_retry` (line 220): `range(max_retries + 1)` attempts. -/
def fetch_with_retry (env : Env) (req : HttpReq) (opts : RetryOptions) : M HttpResp :=
  fetch_go env req opts.max_retries opts.base_delay_ms opts.max_delay_ms
    (opts.max_retries + 1) 0 none none

/-- Python `needle in hay` substring test. -/
def strContains (hay needle : String) : Bool :=
  containsSub hay.data needle.data

/-! ## kubectl snapshot helpers (lines 158-217) -/

/-- `snapshot_exists` (line 158): return code 0 of
`kubectl get volumesnapshot {name} -o name`. -/
def snapshot_exists (env : Env) (snapshot_name : String) : M Bool := do
  let result ← kubeCall env (.getSnap snapshot_name)
  pure (result.rc == 0)

/-- `snapshot_is_ready` (line 167): jsonpath query of `status.readyToUse`. -/
def snapshot_is_ready (env : Env) (snapshot_name : String) : M Bool := do
  let result ← kubeCall env (.getReady snapshot_name)
  if result.rc != 0 then pure false
  else pure (trimLower result.stdout == "true")

/-- The loop of `wait_for_snapshot_ready` (lines 196-207); returns `true` if
ready, `false` on timeout. -/
def wait_ready_go (env : Env) (snapshot_name : String) (timeout interval : Nat) :
    Nat → Nat → M Bool
  | 0, _ => M.throw .fuelOut
  | fuel + 1, elapsed =>
    if elapsed < timeout then do
      let r ← snapshot_is_ready env snapshot_name
      if r then pure true
      else do
        M.sleep (interval * 1000)
        wait_ready_go env snapshot_name timeout interval fuel (elapsed + interval)
    else pure false

/-- `wait_for_snapshot_ready` (line 184). -/
def wait_for_snapshot_ready (env : Env) (snapshot_name : String)
    (timeout_seconds poll_interval : Nat) : M Bool :=
  wait_ready_go env snapshot_name timeout_seconds poll_interval (timeout_seconds + 1) 0

/-- `delete_snapshot` (line 210): a no-op under `dry_run` (print only);
otherwise `kubectl delete` with `check=True` (raises on failure). -/
def delete_snapshot (env : Env) (snapshot_name : String) (dry_run : Bool) : M Unit := do
  if dry_run then pure ()
  else do
    let result ← kubeCall env (.deleteSnap snapshot_name)
    if result.rc != 0 then M.throw .kubectlFail else pure ()

/-! ## Session lifecycle (lines 276-371, 752-768) -/

/-- `start_session` (line 276): body carries `snapshot_name` only when
truthy (line 284). -/
def start_session (env : Env) (snapshot_name : Option String) : M String := do
  let response ← fetch_with_retry env
    (.startSession (if truthyOptStr snapshot_name then snapshot_name else none))
    DEFAULT_RETRY_OPTIONS
  if !response.is_success then M.throw (.sessionStart response.status)
  else
    match jlookup response.body "session_id" with
    | some (.str sid) => pure sid
    | some _ => M.throw (.typeErr "session_id")
    | none => M.throw (.keyError "session_id")

/-- The loop of `poll_until_not_locked` (lines 316-335). -/
def not_locked_go (env : Env) (session_id : String) (timeout interval : Nat) :
    Nat → Nat → M Unit
  | 0, _ => M.throw .fuelOut
  | fuel + 1, elapsed =>
    if elapsed < timeout then do
      let response ← fetch_with_retry env (.status session_id) DEFAULT_RETRY_OPTIONS
      if !response.is_success then M.throw (.statusFail response.status)
      else
        match jlookup response.body "status" with
        | none => M.throw (.keyError "status")
        | some v =>
          if !(v.isStrEq "LOCKED") then pure ()
          else do
            M.sleep (interval * 1000)
            not_locked_go env session_id timeout interval fuel (elapsed + interval)
    else M.throw (.lockedTimeout timeout)

/-- `poll_until_not_locked` (line 305). -/
def poll_until_not_locked (env : Env) (session_id : String)
    (timeout_seconds poll_interval : Nat) : M Unit :=
  not_locked_go env session_id timeout_seconds poll_interval (timeout_seconds + 1) 0

/-- `poll_until_running` (line 340).  The Python loop is unbounded (no
timeout, an asymmetry the spec flags); the `fuel` argument is this
embedding's iteration budget for it. -/
def poll_until_running (env : Env) (session_id : String) : Nat → M Unit
  | 0 => M.throw .fuelOut
  | fuel + 1 => do
    let response ← fetch_with_retry env (.status session_id) DEFAULT_RETRY_OPTIONS
    if !response.is_success then M.throw (.statusFail response.status)
    else
      match jlookup response.body "status" with
      | none => M.throw (.keyError "status")
      | some v =>
        if v.isStrEq "RUNNING" then pure ()
        else if !(v.isStrEq "QUEUED") then M.throw .unexpectedStatus
        else do
          M.sleep 5000
          poll_until_running env session_id fuel

/-- `end_session` (line 752). -/
def end_session (env : Env) (session_id : String) : M Unit := do
  let response ← fetch_with_retry env (.stop session_id) DEFAULT_RETRY_OPTIONS
  if !response.is_success then M.throw (.sessionStop response.status) else pure ()

/-! ## Mutation batch applier (lines 374-424, 546-607) -/

/-- `send_mutation_batch` (line 374): POST `{"mutations": [...]}`. -/
def send_mutation_batch (env : Env) (sid : String) (mutations : List JVal) : M Unit := do
  let response ← fetch_with_retry env
    (.transaction sid (.obj [("mutations", .arr mutations)])) DEFAULT_RETRY_OPTIONS
  if !response.is_success then M.throw (.transactionFail response.status) else pure ()

/-- `send_transaction` (line 392): POST the recorded transaction object
as-is. -/
def send_transaction (env : Env) (sid : String) (transaction : JVal) : M Unit := do
  let response ← fetch_with_retry env (.transaction sid transaction) DEFAULT_RETRY_OPTIONS
  if !response.is_success then M.throw (.transactionFail response.status) else pure ()

/-- `apply_transactions` (line 411): replay in exact original order, one call
per transaction, sequentially. -/
def apply_transactions (env : Env) (sid : String) (transactions : List JVal) : M Unit :=
  transactions.forM (send_transaction env sid)

/-- The delete mutation built per collection (line 559):
`{"type": "delete", "collection": c, "deletes": [{"query": {}}]}`. -/
def deleteMutation (collection : String) : JVal :=
  .obj [("type", .str "delete"), ("collection", .str collection),
        ("deletes", .arr [.obj [("query", .obj [])]])]

/-- The insert mutation built per document chunk (line 566). -/
def insertMutation (collection : String) (documents : List JVal) : JVal :=
  .obj [("type", .str "insert"), ("collection", .str collection),
        ("documents", .arr documents)]

/-- The first loop of `seed_full_data` (lines 555-572): per collection key
other than `"type"`, one delete mutation always, then one insert mutation per
chunk of 5 documents when the value is a non-empty list
(`isinstance(documents, list) and len(documents) > 0`). -/
def build_full_mutations (fields : List (String × JVal)) : List JVal × List JVal :=
  fields.foldl
    (fun acc kv =>
      if kv.1 = "type" then acc
      else
        let dels := acc.1 ++ [deleteMutation kv.1]
        match kv.2 with
        | .arr documents =>
          if 0 < documents.length then
            (dels, acc.2 ++ (chunk_array documents 5).map (insertMutation kv.1))
          else (dels, acc.2)
        | _ => (dels, acc.2))
    ([], [])

/-- `seed_full_data` (line 546): delete batches of 5 sent sequentially, then
insert batches of 5 sent in `asyncio.gather` groups of 20 (a gather issues its
chunk's requests together; the trace records them in list order). -/
def seed_full_data (env : Env) (sid : String) (data : JVal) : M Unit := do
  match data with
  | .obj fields => do
    let muts := build_full_mutations fields
    let delete_batches := chunk_array muts.1 5
    delete_batches.forM (send_mutation_batch env sid)
    let insert_batches := chunk_array muts.2 5
    let parallel_chunks := chunk_array insert_batches 20
    parallel_chunks.forM (fun chunk => chunk.forM (send_mutation_batch env sid))
  | _ => M.throw (.typeErr "seed data is not an object")

/-! ## Search-index coordinator (lines 427-543) -/

/-- Outcome of one iteration body of `poll_index_creation_status`. -/
inductive PollBodyOut where
  | returned
  | continued
deriving DecidableEq

/-- The body of the `try:` block of one `poll_index_creation_status`
iteration (lines 438-481, without the trailing sleep): classify the indexes;
`returned` for the success `return`, `continued` for the warn-and-continue
paths.  Note the `raise RuntimeError("Index creation failed: ...")` of line
475 sits *inside* this `try` block, so it propagates to the `except` handler
of the same loop. -/
def poll_index_body (env : Env) (sid : String) : M PollBodyOut := do
  let response ← fetch_with_retry env (.searchIndexStatus sid) DEFAULT_RETRY_OPTIONS
  if !response.is_success then pure .continued
  else do
    let indexes ←
      match jlookup response.body "indexes" with
      | some (.arr l) => pure l
      | none => pure []
      | some _ => M.throw (.typeErr "indexes")
    let statusIs := fun (idx : JVal) (st : String) =>
      match jlookup idx "status" with
      | some v => v.isStrEq st
      | none => false
    let in_progress := indexes.filter (fun idx => statusIs idx "in_progress")
    let pending := indexes.filter (fun idx => statusIs idx "pending")
    let failed := indexes.filter (fun idx => statusIs idx "failed")
    if in_progress.isEmpty && pending.isEmpty then
      if !failed.isEmpty then do
        let names ← failed.mapM (fun idx =>
          match jlookup idx "collection" with
          | some (.str c) => pure c
          | _ => M.throw (.typeErr "collection"))
        M.throw (.indexFailed (String.intercalate ", " names))
      else pure .returned
    else pure .continued

/-- The loop of `poll_index_creation_status` (lines 437-486): every exception
of the body — including the deliberate `indexFailed` raise — is caught by
`except Exception` (line 483), logged, and the loop sleeps and continues;
past the deadline it raises the generic timeout error (line 488). -/
def poll_index_go (env : Env) (sid : String) (timeout interval : Nat) :
    Nat → Nat → M Unit
  | 0, _ => M.throw .fuelOut
  | fuel + 1, elapsed =>
    if elapsed < timeout then do
      let out ← M.pyCatch (poll_index_body env sid) (fun _e => pure .continued)
      match out with
      | .returned => pure ()
      | .continued => do
        M.sleep (interval * 1000)
        poll_index_go env sid timeout interval fuel (elapsed + interval)
    else M.throw (.indexTimeout timeout)

/-- `poll_index_creation_status` (line 427). -/
def poll_index_creation_status (env : Env) (sid : String)
    (timeout_seconds poll_interval : Nat) : M Unit :=
  poll_index_go env sid timeout_seconds poll_interval (timeout_seconds + 1) 0

/-- `create_meilisearch_indices` (line 493): mapping or file absent is a
logged no-op; a non-success `create-search-index` POST raises; then poll. -/
def create_meilisearch_indices (env : Env) (sid : String) (app_context : String) :
    M Unit := do
  match APP_INDICES_MAPPING.lookup app_context with
  | none => pure ()
  | some indices_path => do
    let resolved_path := resolvePth (env.cwd ++ splitStr indices_path '/')
    match env.fs resolved_path with
    | none => pure ()
    | some indices_data => do
      let indices :=
        match jlookup indices_data "indices" with
        | some v => v
        | none => JVal.arr []
      if !indices.jTruthy then pure ()
      else do
        let response ← fetch_with_retry env
          (.createSearchIndex sid (.obj [("indexes", indices)])) DEFAULT_RETRY_OPTIONS
        if !response.is_success then M.throw (.indexCreateFail response.status)
        else poll_index_creation_status env sid 600 5

/-! ## Snapshot-creation request (`create_seed`, lines 609-749) -/

/-- The loop of `poll_for_snapshot_creation` (lines 711-723): existence check
first, then sleep; `false` on timeout. -/
def poll_snap_go (env : Env) (snapshot_name : String) (timeout interval : Nat) :
    Nat → Nat → M Bool
  | 0, _ => M.throw .fuelOut
  | fuel + 1, elapsed =>
    if elapsed < timeout then do
      let ex ← snapshot_exists env snapshot_name
      if ex then pure true
      else do
        M.sleep (interval * 1000)
        poll_snap_go env snapshot_name timeout interval fuel (elapsed + interval)
    else pure false

/-- `poll_for_snapshot_creation` (line 702). -/
def poll_for_snapshot_creation (env : Env) (snapshot_name : String)
    (timeout_seconds poll_interval : Nat) : M Bool :=
  poll_snap_go env snapshot_name timeout_seconds poll_interval (timeout_seconds + 1) 0

/-- `poll_for_meilisearch_snapshot_creation` (line 726): the same loop on the
`meilisearch-{name}` companion. -/
def poll_for_meilisearch_snapshot_creation (env : Env) (snapshot_name : String)
    (timeout_seconds poll_interval : Nat) : M Bool :=
  poll_snap_go env ("meilisearch-" ++ snapshot_name) timeout_seconds poll_interval
    (timeout_seconds + 1) 0

/-- `create_seed` (line 609): stricter retry profile (3 retries, 2s/15s) for
the slow volume-snapshot POST; returns `(response.json(), session_already_ended)`.
On HTTP 400 with "running sessions" in the body (line 639): poll kubectl for
the snapshot for 90s; if found, poll the `meilisearch-` companion for 90s
(absence is only a warning), wait until the session leaves `LOCKED`, end the
session (failures to end only warned), and report success with the session
already ended; if not found, raise (line 671).  Any other failure raises
(line 675). -/
def create_seed (env : Env) (session_id name : String) : M (JVal × Bool) := do
  let response ← fetch_with_retry env (.createSeed session_id name) ⟨3, 2000, 15000⟩
  if response.is_success then pure (response.body, false)
  else do
    let error_text := response.text
    if response.status == 400 && strContains error_text "running sessions" then do
      let found ← poll_for_snapshot_creation env name 90 10
      if found then do
        let _ ← poll_for_meilisearch_snapshot_creation env name 90 10
        poll_until_not_locked env session_id 300 10
        M.pyCatch (end_session env session_id) (fun _e => pure ())
        pure (.obj [("seed_id", .str name)], true)
      else M.throw .seedNotCreated
    else M.throw (.seedCreateFail response.status error_text)

/-- `create_seed_fire_and_forget` (line 678): submit the POST as a detached
task without awaiting any response. -/
def create_seed_fire_and_forget (_env : Env) (session_id name : String) : M Unit :=
  M.emit (.httpFF (.createSeed session_id name))

/-! ## Snapshot resolver (`ensure_snapshot_exists`, lines 771-965) -/

/-- `resolve_base_file_path` (line 125): `initial_data` goes through the app
mapping rooted at `Path.cwd()` (no normalisation at this point — the `..`
components are resolved later, exactly as in the source); any other `base_id`
is a sibling `{base_id}.json` of the resolved parent directory. -/
def resolve_base_file_path (cwd : Pth) (json_path : Pth) (base_id : String) :
    Except Err Pth :=
  let json_dir := (resolvePth json_path).dropLast
  if base_id = "initial_data" then
    let folder_name := (json_dir.getLast?).getD ""
    match APP_INITIAL_DATA_MAPPING.lookup folder_name with
    | none => .error (.valueError folder_name)
    | some relative_path => .ok (cwd ++ splitStr relative_path '/')
  else .ok (json_dir ++ [base_id ++ ".json"])

/-- Lines 806: `app_context or Path(json_path).resolve().parent.name`
(Python truthiness: `""` also falls back to the parent name). -/
def current_app_context_of (full_path : Pth) (app_context : Option String) : String :=
  match app_context with
  | some a => if a = "" then parentNameOf full_path else a
  | none => parentNameOf full_path

/-- Lines 809-813: `override_name if override_name else
calculate_snapshot_name(json_path, current_app_context)`. -/
def snapshot_name_of (json_path : Pth) (ctx : String) (override_name : Option String) :
    String :=
  match override_name with
  | some n => if n = "" then calculate_snapshot_name json_path (some ctx) else n
  | none => calculate_snapshot_name json_path (some ctx)

/-- `ensure_snapshot_exists` (line 771).  The first argument after `env` is
the recursion-depth fuel (the Python recursion is bounded only by the file
tree; `Err.fuelOut` marks exhaustion).  `visited` and `processed_snapshots`
live in the state; `session_id` / `session_ended` are the state fields
`curSess` / `curEnded`, reset at the point of lines 910-911 and read by the
`finally` block (lines 959-965). -/
def ensure_snapshot_exists (env : Env) :
    Nat → Pth → Bool → Bool → Bool → Option String → Option String → M String
  | 0, _, _, _, _, _, _ => M.throw .fuelOut
  | fuel + 1, json_path, overwrite, dry_run, fire_and_forget, app_context,
      override_name => do
    let full_path := resolvePth json_path
    let st ← M.get
    if full_path ∈ st.visited then M.throw (.circular (renderPth full_path))
    else do
      M.modify (fun s => { s with visited := s.visited ++ [full_path] })
      let current_app_context := current_app_context_of full_path app_context
      let snapshot_name := snapshot_name_of json_path current_app_context override_name
      let exists_ ← snapshot_exists env snapshot_name
      let st2 ← M.get
      if snapshot_name ∈ st2.processed then do
        M.modify (fun s => { s with visited := s.visited.erase full_path })
        pure snapshot_name
      else if exists_ && !overwrite then do
        M.modify (fun s =>
          { s with processed := setAdd s.processed snapshot_name,
                   visited := s.visited.erase full_path })
        pure snapshot_name
      else do
        if exists_ && overwrite then do
          delete_snapshot env snapshot_name dry_run
          let meili := "meilisearch-" ++ snapshot_name
          let mex ← snapshot_exists env meili
          if mex then delete_snapshot env meili dry_run else pure ()
        else pure ()
        match env.fs full_path with
        | none => M.throw (.fileNotFound (renderPth full_path))
        | some data => do
          let base_snapshot_name ←
            if is_diff_seed_file data then do
              match jlookup data "base_id" with
              | none => M.throw (.keyError "base_id")
              | some (.str base_id) =>
                match resolve_base_file_path env.cwd json_path base_id with
                | .error e => M.throw e
                | .ok base_file_path => do
                  let bn ← ensure_snapshot_exists env fuel base_file_path overwrite
                    dry_run fire_and_forget (some current_app_context) none
                  pure (some bn)
              | some _ => M.throw (.typeErr "base_id")
            else pure none
          if dry_run then do
            M.modify (fun s =>
              { s with processed := setAdd s.processed snapshot_name,
                       visited := s.visited.erase full_path })
            pure snapshot_name
          else do
            if truthyOptStr base_snapshot_name then do
              let bname := base_snapshot_name.getD ""
              let ready ← snapshot_is_ready env bname
              if !ready then do
                let ok ← wait_for_snapshot_ready env bname 300 10
                if !ok then M.throw (.baseNotReady bname) else pure ()
              else pure ()
            else pure ()
            M.modify (fun s => { s with curSess := none, curEnded := false })
            M.tryFinally
              (do
                let sid ← start_session env base_snapshot_name
                M.modify (fun s => { s with curSess := some sid })
                poll_until_running env sid (fuel + 1)
                if is_diff_seed_file data then do
                  match jlookup data "transactions" with
                  | none => M.throw (.keyError "transactions")
                  | some (.arr txs) => apply_transactions env sid txs
                  | some _ => M.throw (.typeErr "transactions")
                else do
                  seed_full_data env sid data
                  create_meilisearch_indices env sid current_app_context
                if fire_and_forget then do
                  create_seed_fire_and_forget env sid snapshot_name
                  M.modify (fun s => { s with curEnded := false })
                else do
                  let res ← create_seed env sid snapshot_name
                  M.modify (fun s => { s with curEnded := res.2 })
                  match jlookup res.1 "seed_id" with
                  | none => M.throw (.keyError "seed_id")
                  | some _ => pure ()
                  if !res.2 then poll_until_not_locked env sid 300 10 else pure ()
                M.modify (fun s =>
                  { s with processed := setAdd s.processed snapshot_name,
                           visited := s.visited.erase full_path })
                pure snapshot_name)
              (do
                let s ← M.get
                if truthyOptStr s.curSess && !s.curEnded && !fire_and_forget then
                  M.pyCatch (end_session env (s.curSess.getD "")) (fun _e => pure ())
                else pure ())

/-! ## Monad unfolding lemmas -/

theorem M.bind_app (x : M α) (f : α → M β) (s : STr) :
    (x >>= f) s =
      match x s with
      | (.ok a, s₁) => f a s₁
      | (.error e, s₁) => (.error e, s₁) := rfl

theorem M.pure_app (a : α) (s : STr) : (pure a : M α) s = (.ok a, s) := rfl

theorem M.throw_app (e : Err) (s : STr) : (M.throw e : M α) s = (.error e, s) := rfl

theorem M.get_app (s : STr) : M.get s = (.ok s, s) := rfl

theorem M.modify_app (f : STr → STr) (s : STr) : M.modify f s = (.ok (), f s) := rfl

/-! ## Pure facts about `chunk_array` -/

/-- The fuel of `chunk_go` is irrelevant as long as it covers the list. -/
theorem chunk_go_fuel_irrel (s : Nat) :
    ∀ (fuel₁ fuel₂ : Nat) (l : List α), l.length ≤ fuel₁ → l.length ≤ fuel₂ →
      chunk_go (s + 1) fuel₁ l = chunk_go (s + 1) fuel₂ l := by
  intro fuel₁
  induction fuel₁ with
  | zero =>
    intro fuel₂ l h₁ _
    have : l = [] := List.eq_nil_of_length_eq_zero (Nat.le_zero.mp h₁)
    subst this
    cases fuel₂ <;> rfl
  | succ f ih =>
    intro fuel₂ l h₁ h₂
    cases l with
    | nil => cases fuel₂ <;> rfl
    | cons x xs =>
      cases fuel₂ with
      | zero => exact absurd h₂ (by simp)
      | succ g =>
        simp only [chunk_go]
        have hd : (xs.drop s).length ≤ f := by
          simp only [List.length_drop]
          simp only [List.length_cons] at h₁
          omega
        have hd₂ : (xs.drop s).length ≤ g := by
          simp only [List.length_drop]
          simp only [List.length_cons] at h₂
          omega
        rw [ih g (xs.drop s) hd hd₂]

/-- `chunk_array` on the empty list. -/
theorem chunk_array_nil (s : Nat) : chunk_array ([] : List α) s = [] := by
  cases s <;> rfl

/-- The defining step of `chunk_array` for a positive size: first `size`
elements, then the chunks of the rest. -/
theorem chunk_array_step (s : Nat) (l : List α) (hl : l ≠ []) :
    chunk_array l (s + 1) = l.take (s + 1) :: chunk_array (l.drop (s + 1)) (s + 1) := by
  cases l with
  | nil => exact absurd rfl hl
  | cons x xs =>
    show chunk_go (s + 1) (xs.length + 1) (x :: xs) = _
    simp only [chunk_go]
    have h₁ : (xs.drop s).length ≤ xs.length := by
      simp only [List.length_drop]; omega
    rw [chunk_go_fuel_irrel s xs.length (xs.drop s).length (xs.drop s) h₁ le_rfl]
    simp [List.drop_succ_cons, chunk_array]

/-- Rejoining the chunks gives back the list. -/
theorem chunk_array_flatten (s : Nat) (l : List α) :
    (chunk_array l (s + 1)).flatten = l := by
  suffices h : ∀ (n : Nat) (l' : List α), l'.length = n →
      (chunk_array l' (s + 1)).flatten = l' from h l.length l rfl
  intro n
  induction n using Nat.strong_induction_on with
  | _ n ih =>
    intro l' hn
    cases l' with
    | nil => simp [chunk_array_nil]
    | cons x xs =>
      rw [chunk_array_step s (x :: xs) (by simp)]
      simp only [List.flatten_cons]
      have hlt : ((x :: xs).drop (s + 1)).length < n := by
        simp only [List.length_drop, List.length_cons]
        simp only [List.length_cons] at hn
        omega
      rw [ih _ hlt _ rfl]
      exact List.take_append_drop (s + 1) (x :: xs)

/-! ## Pure facts about `build_full_mutations` (C8, C10 groundwork) -/

/-- The insert mutations contributed by one collection entry: one per chunk
of 5 documents when the value is a non-empty list, none otherwise. -/
def insertsFor (collection : String) (v : JVal) : List JVal :=
  match v with
  | .arr documents =>
    if 0 < documents.length then (chunk_array documents 5).map (insertMutation collection)
    else []
  | _ => []

/-- One entry's effect in the `seed_full_data` accumulation loop. -/
theorem build_step (accD accI : List JVal) (kv : String × JVal) (h : ¬ kv.1 = "type") :
    (if kv.1 = "type" then (accD, accI)
     else
       let dels := accD ++ [deleteMutation kv.1]
       match kv.2 with
       | .arr documents =>
         if 0 < documents.length then
           (dels, accI ++ (chunk_array documents 5).map (insertMutation kv.1))
         else (dels, accI)
       | _ => (dels, accI))
    = (accD ++ [deleteMutation kv.1], accI ++ insertsFor kv.1 kv.2) := by
  rw [if_neg h]
  cases hv : kv.2 <;> simp only [insertsFor]
  case arr documents =>
    by_cases hd : 0 < documents.length
    · simp [hd]
    · simp [hd]
  all_goals simp

/-- The `seed_full_data` accumulation loop, with explicit accumulators. -/
theorem build_full_mutations_go (fields : List (String × JVal)) :
    ∀ (accD accI : List JVal),
      fields.foldl
        (fun acc kv =>
          if kv.1 = "type" then acc
          else
            let dels := acc.1 ++ [deleteMutation kv.1]
            match kv.2 with
            | .arr documents =>
              if 0 < documents.length then
                (dels, acc.2 ++ (chunk_array documents 5).map (insertMutation kv.1))
              else (dels, acc.2)
            | _ => (dels, acc.2))
        (accD, accI)
      = (accD ++ (fields.filter (fun kv => !(kv.1 == "type"))).map
            (fun kv => deleteMutation kv.1),
         accI ++ (fields.filter (fun kv => !(kv.1 == "type"))).flatMap
            (fun kv => insertsFor kv.1 kv.2)) := by
  induction fields with
  | nil => simp
  | cons kv rest ih =>
    intro accD accI
    rw [List.foldl_cons]
    by_cases ht : kv.1 = "type"
    · rw [if_pos ht, ih accD accI]
      have hb : (kv.1 == "type") = true := by simp [ht]
      simp [List.filter_cons, hb]
    · rw [build_step accD accI kv ht, ih]
      have hb : (kv.1 == "type") = false := by simp [ht]
      simp [List.filter_cons, hb]

/-- Closed form of the `seed_full_data` mutation builder: the delete mutations
are exactly one per non-`"type"` key, in key order; the insert mutations are
the concatenation of each such key's `insertsFor`. -/
theorem build_full_mutations_spec (fields : List (String × JVal)) :
    build_full_mutations fields =
      ((fields.filter (fun kv => !(kv.1 == "type"))).map (fun kv => deleteMutation kv.1),
       (fields.filter (fun kv => !(kv.1 == "type"))).flatMap
          (fun kv => insertsFor kv.1 kv.2)) := by
  have h := build_full_mutations_go fields [] []
  simpa [build_full_mutations] using h

/-- Chunking any 23-element list by 5 yields pieces of sizes 5, 5, 5, 5, 3. -/
theorem chunk_lengths_of_23 (docs : List α) (h : docs.length = 23) :
    (chunk_array docs 5).map List.length = [5, 5, 5, 5, 3] := by
  have e1 : (docs.drop 5).length = 18 := by simp [h]
  have e2 : ((docs.drop 5).drop 5).length = 13 := by simp [h]
  have e3 : (((docs.drop 5).drop 5).drop 5).length = 8 := by simp [h]
  have e4 : ((((docs.drop 5).drop 5).drop 5).drop 5).length = 3 := by simp [h]
  have e5 : (((((docs.drop 5).drop 5).drop 5).drop 5).drop 5) = [] :=
    List.eq_nil_of_length_eq_zero (by simp [h])
  have n0 : docs ≠ [] := by
    intro e; rw [e] at h; simp at h
  have n1 : docs.drop 5 ≠ [] := by
    intro e; rw [e] at e1; simp at e1
  have n2 : (docs.drop 5).drop 5 ≠ [] := by
    intro e; rw [e] at e2; simp at e2
  have n3 : ((docs.drop 5).drop 5).drop 5 ≠ [] := by
    intro e; rw [e] at e3; simp at e3
  have n4 : (((docs.drop 5).drop 5).drop 5).drop 5 ≠ [] := by
    intro e; rw [e] at e4; simp at e4
  rw [chunk_array_step 4 docs n0, chunk_array_step 4 _ n1, chunk_array_step 4 _ n2,
      chunk_array_step 4 _ n3, chunk_array_step 4 _ n4, e5, chunk_array_nil]
  simp only [List.map_cons, List.map_nil, List.length_take, h, e1, e2, e3, e4]
  decide

/-! ## Projections for concrete-run statements -/

/-- The value of a successful run, if any. -/
def okOf : Except Err α → Option α
  | .ok a => some a
  | .error _ => none

/-- The exception of a failed run, if any. -/
def errOf : Except Err α → Option Err
  | .ok _ => none
  | .error e => some e

/-- Whether a mutation's `deletes` field is exactly `[{"query": {}}]` (the
wipe-everything filter built by `seed_full_data`). -/
def isEmptyQueryDeletes (m : JVal) : Bool :=
  match jlookup m "deletes" with
  | some (.arr [d]) =>
    match jlookup d "query" with
    | some (.obj []) => true
    | _ => false
  | _ => false

/-- Summary of one mutation: its `type`, `collection`, number of `documents`,
and whether its `deletes` is the whole-collection filter `[{"query": {}}]`. -/
def mutationSummary (m : JVal) : String × String × Nat × Bool :=
  ((match jlookup m "type" with | some (.str t) => t | _ => ""),
   (match jlookup m "collection" with | some (.str c) => c | _ => ""),
   (match jlookup m "documents" with | some (.arr d) => d.length | _ => 0),
   isEmptyQueryDeletes m)

/-- Summaries of the mutation batches posted in a trace, one list per
`transaction` request carrying a `mutations` array, in request order. -/
def batchSummaries (evs : List Event) : List (List (String × String × Nat × Bool)) :=
  evs.filterMap fun e =>
    match e with
    | .http (.transaction _ body) =>
      match jlookup body "mutations" with
      | some (.arr ms) => some (ms.map mutationSummary)
      | _ => none
    | _ => none

/-! ## Shared concrete fixtures -/

/-- A stub platform whose HTTP side always answers successfully: sessions
start as `"s1"`, statuses are `RUNNING`, seed creation returns a seed id. -/
def httpAllOk : Nat → HttpReq → Except String HttpResp := fun _ req =>
  match req with
  | .startSession _ => .ok ⟨200, .obj [("session_id", .str "s1")], ""⟩
  | .status _ => .ok ⟨200, .obj [("status", .str "RUNNING")], ""⟩
  | .createSeed _ _ => .ok ⟨200, .obj [("seed_id", .str "sd1")], ""⟩
  | _ => .ok ⟨200, .obj [], ""⟩

/-- A kubectl stub on which no volume snapshot exists, and readiness queries
report ready. -/
def kubeNoSnaps : Nat → KubeReq → KubeResp := fun _ req =>
  match req with
  | .getSnap _ => ⟨1, ""⟩
  | .getReady _ => ⟨0, "true"⟩
  | .deleteSnap _ => ⟨0, ""⟩

/-- 23 documents (their contents are irrelevant to batching). -/
def docs23 : List JVal := List.replicate 23 (.other true)

/-- A one-collection full seed with 23 documents. -/
def seed23 : JVal := .obj [("users", .arr docs23)]

/-- Environment for driving `seed_full_data` directly. -/
def envBatch : Env := ⟨["root"], fun _ => none, httpAllOk, kubeNoSnaps⟩

/-- C8: (i) for every collection of 23 documents, chunking by 5 yields exactly
5 chunks of sizes 5, 5, 5, 5, 3; (ii) for every seed document, the delete
mutations are exactly one per non-`"type"` collection key, each carrying the
whole-collection filter `[{"query": {}}]`; (iii) running `seed_full_data` on a
23-document collection posts exactly one delete batch (one delete mutation,
empty-query filter), followed by one insert batch whose five insert mutations
carry 5, 5, 5, 5, 3 documents — every delete precedes every insert. -/
theorem full_seed_batch_chunking :
    (∀ (docs : List JVal), docs.length = 23 →
        (chunk_array docs 5).map List.length = [5, 5, 5, 5, 3])
    ∧ (∀ (fields : List (String × JVal)),
        (build_full_mutations fields).1 =
          (fields.filter (fun kv => !(kv.1 == "type"))).map
            (fun kv => deleteMutation kv.1))
    ∧ batchSummaries ((seed_full_data envBatch "s1" seed23) STr.init).2.events =
        [[("delete", "users", 0, true)],
         [("insert", "users", 5, false), ("insert", "users", 5, false),
          ("insert", "users", 5, false), ("insert", "users", 5, false),
          ("insert", "users", 3, false)]] := by
  refine ⟨fun docs h => chunk_lengths_of_23 docs h, fun fields => ?_, by decide!⟩
  rw [build_full_mutations_spec]

/-- Witness for `full_seed_batch_chunking` at a concrete 23-document list. -/
theorem full_seed_batch_chunking_witness :
    (chunk_array docs23 5).map List.length = [5, 5, 5, 5, 3] :=
  full_seed_batch_chunking.1 docs23 (by decide)

/-- C10: in full-seed mode every collection key other than `"type"` yields
exactly one delete mutation with filter `[{"query": {}}]` whatever its value,
while insert mutations exist only for non-empty list values: (i) closed form
of both mutation lists for every seed document; (ii) a collection mapped to an
empty list is wiped and nothing is inserted; (iii) likewise for a non-list
value. -/
theorem full_seed_delete_always_insert_nonempty :
    (∀ (fields : List (String × JVal)),
        build_full_mutations fields =
          ((fields.filter (fun kv => !(kv.1 == "type"))).map
              (fun kv => deleteMutation kv.1),
           (fields.filter (fun kv => !(kv.1 == "type"))).flatMap
              (fun kv => insertsFor kv.1 kv.2)))
    ∧ build_full_mutations [("users", .arr [])] = ([deleteMutation "users"], [])
    ∧ build_full_mutations [("users", .other true)] = ([deleteMutation "users"], []) := by
  exact ⟨fun fields => build_full_mutations_spec fields, rfl, rfl⟩

/-! ## The retry loop under an always-503 transport (C4 groundwork) -/

/-- A 503 response. -/
def resp503 : HttpResp := ⟨503, .obj [], ""⟩

/-- A transport that always yields HTTP 503. -/
def env503 : Env := ⟨[], fun _ => none, fun _ _ => .ok resp503, kubeNoSnaps⟩

/-- An arbitrary request to probe the client with. -/
def reqProbe : HttpReq := .status "s1"

/-- The events produced by `k + 1` failing attempts starting at attempt
number `attempt`: an attempt, then alternately the backoff sleep and the next
attempt. -/
def fetchTrace503 (req : HttpReq) (base maxD : Nat) : Nat → Nat → List Event
  | _, 0 => [.http req]
  | attempt, k + 1 =>
    .http req :: .sleepMs (min (base * 2 ^ attempt) maxD) ::
      fetchTrace503 req base maxD (attempt + 1) k

theorem httpAttemptCount_append (a b : List Event) :
    httpAttemptCount (a ++ b) = httpAttemptCount a + httpAttemptCount b := by
  simp [httpAttemptCount, List.filter_append]

theorem sleepsOf_append (a b : List Event) :
    sleepsOf (a ++ b) = sleepsOf a ++ sleepsOf b := by
  simp [sleepsOf, List.filterMap_append]

theorem fetchTrace503_attempts (req : HttpReq) (base maxD : Nat) :
    ∀ (k attempt : Nat),
      httpAttemptCount (fetchTrace503 req base maxD attempt k) = k + 1 := by
  intro k
  induction k with
  | zero => intro attempt; rfl
  | succ k ih =>
    intro attempt
    simp only [fetchTrace503, httpAttemptCount, List.filter_cons]
    have h := ih (attempt + 1)
    simp only [httpAttemptCount] at h
    simp [h]

theorem fetchTrace503_sleeps (req : HttpReq) (base maxD : Nat) :
    ∀ (k attempt : Nat),
      sleepsOf (fetchTrace503 req base maxD attempt k) =
        (List.range k).map (fun i => min (base * 2 ^ (attempt + i)) maxD) := by
  intro k
  induction k with
  | zero => intro attempt; rfl
  | succ k ih =>
    intro attempt
    simp only [fetchTrace503, sleepsOf, List.filterMap_cons]
    have h := ih (attempt + 1)
    simp only [sleepsOf] at h
    rw [List.range_succ_eq_map]
    simp only [List.map_cons, List.map_map]
    simp only [h]
    have e : ∀ i : Nat, attempt + 1 + i = attempt + (i + 1) := fun i => by omega
    simp [e]

/-- Closed form of the retry loop against an always-503 transport: with
`k` retries remaining (`attempt + k = max_retries`), all `k + 1` attempts are
issued with the backoff sleeps between them, and the final failing response is
returned as-is. -/
theorem fetch_go_503 (req : HttpReq) (base maxD maxR : Nat) :
    ∀ (k attempt : Nat) (lr : Option HttpResp) (le : Option String) (s : STr),
      attempt + k = maxR →
      fetch_go env503 req maxR base maxD (k + 1) attempt lr le s =
        (.ok resp503,
         { s with httpN := s.httpN + (k + 1),
                  events := s.events ++ fetchTrace503 req base maxD attempt k }) := by
  intro k
  induction k with
  | zero =>
    intro attempt lr le s h
    have ha : attempt = maxR := by omega
    subst ha
    simp [fetch_go, M.bind_app, httpAttempt, env503, resp503, HttpResp.is_success,
      fetchTrace503, M.pure_app]
  | succ k ih =>
    intro attempt lr le s h
    have hne : (attempt == maxR) = false := by
      simp only [beq_eq_false_iff_ne, ne_eq]
      omega
    have henv : ∀ (n : Nat) (r : HttpReq), env503.http n r = .ok resp503 := fun _ _ => rfl
    conv_lhs => rw [fetch_go]
    simp only [M.bind_app, httpAttempt, henv, M.pure_app, M.sleep, M.emit, hne,
      HttpResp.is_success, resp503]
    norm_num
    simp only [M.bind_app, M.emit]
    rw [ih _ _ _ _ (by omega)]
    simp [fetchTrace503, resp503]
    omega

/-- A 400 response, and a transport always yielding it. -/
def resp400 : HttpResp := ⟨400, .obj [], ""⟩

/-- A transport that always yields HTTP 400. -/
def env400 : Env := ⟨[], fun _ => none, fun _ _ => .ok resp400, kubeNoSnaps⟩

/-- A transport that always yields HTTP 600. -/
def env600 : Env := ⟨[], fun _ => none, fun _ _ => .ok ⟨600, .obj [], ""⟩, kubeNoSnaps⟩

/-- A transport that always yields HTTP 429. -/
def env429 : Env := ⟨[], fun _ => none, fun _ _ => .ok ⟨429, .obj [], ""⟩, kubeNoSnaps⟩

/-- A transport that yields 503 except for a transport-level exception on the
fourth attempt (the last one under the default options). -/
def envExnFinal : Env :=
  ⟨[], fun _ => none,
   fun n _ => if n == 3 then .error "boom" else .ok resp503, kubeNoSnaps⟩

/-- Counterexample to C4 as stated: the claim says a non-success status
outside `{429} ∪ [500, 600)` is returned immediately after a single attempt,
but `fetch_with_retry` retries on *any* status `≥ 500`
(`response.status_code >= 500`, line 243, has no upper bound), so a transport
that always answers HTTP 600 produces `max_retries + 1 = 4` attempts, not 1. -/
theorem fetch_retry_600_retried :
    httpAttemptCount
        ((fetch_with_retry env600 reqProbe DEFAULT_RETRY_OPTIONS) STr.init).2.events = 4
    ∧ okOf ((fetch_with_retry env600 reqProbe DEFAULT_RETRY_OPTIONS) STr.init).1
        = some ⟨600, .obj [], ""⟩ := by
  constructor
  · decide!
  · rfl

/-- C4 (amended: the retried statuses are `{429} ∪ [500, ∞)`):
(i) an always-503 transport yields exactly `max_retries + 1` attempts with
backoff sleeps `min(base_delay_ms * 2 ^ attempt, max_delay_ms)` between
them, and the last failing response is returned as-is (never a synthesized
success); (ii) a 400 response is returned immediately after a single attempt
with no retry; (iii) a transport exception on the final attempt is re-raised
to the caller (after the full `max_retries + 1` attempts); (iv) 429 is
retried like a 5xx. -/
theorem fetch_retry_spec :
    (∀ (maxR base maxD : Nat) (s : STr),
        (fetch_with_retry env503 reqProbe ⟨maxR, base, maxD⟩) s =
          (.ok resp503,
           { s with httpN := s.httpN + (maxR + 1),
                    events := s.events ++ fetchTrace503 reqProbe base maxD 0 maxR })
        ∧ httpAttemptCount (fetchTrace503 reqProbe base maxD 0 maxR) = maxR + 1
        ∧ sleepsOf (fetchTrace503 reqProbe base maxD 0 maxR) =
            (List.range maxR).map (fun a => min (base * 2 ^ a) maxD))
    ∧ (∀ (maxR base maxD : Nat) (s : STr),
        (fetch_with_retry env400 reqProbe ⟨maxR, base, maxD⟩) s =
          (.ok resp400,
           { s with httpN := s.httpN + 1, events := s.events ++ [.http reqProbe] }))
    ∧ errOf ((fetch_with_retry envExnFinal reqProbe DEFAULT_RETRY_OPTIONS) STr.init).1
        = some (.transport "boom")
    ∧ httpAttemptCount
        ((fetch_with_retry envExnFinal reqProbe DEFAULT_RETRY_OPTIONS) STr.init).2.events = 4
    ∧ httpAttemptCount
        ((fetch_with_retry env429 reqProbe DEFAULT_RETRY_OPTIONS) STr.init).2.events = 4 := by
  refine ⟨fun maxR base maxD s => ⟨?_, fetchTrace503_attempts reqProbe base maxD maxR 0, ?_⟩,
    fun maxR base maxD s => ?_, by rfl, by decide, by decide⟩
  · exact fetch_go_503 reqProbe base maxD maxR maxR 0 none none s (by omega)
  · have h := fetchTrace503_sleeps reqProbe base maxD maxR 0
    simpa using h
  · have henv : ∀ (n : Nat) (r : HttpReq), env400.http n r = .ok resp400 := fun _ _ => rfl
    show fetch_go env400 reqProbe maxR base maxD (maxR + 1) 0 none none s = _
    conv_lhs => rw [fetch_go]
    simp only [M.bind_app, httpAttempt, henv, M.pure_app, HttpResp.is_success, resp400]
    norm_num
    rfl

/-! ## Concrete fixtures: a 3-level diff chain A → B → C -/

/-- `/data/figma/A.json`. -/
def pathA : Pth := ["data", "figma", "A.json"]
/-- `/data/figma/B.json`. -/
def pathB : Pth := ["data", "figma", "B.json"]
/-- `/data/figma/C.json`. -/
def pathC : Pth := ["data", "figma", "C.json"]

/-- `A.json`: a diff seed on base `B`. -/
def diffFileA : JVal :=
  .obj [("type", .str "diff"), ("base_id", .str "B"),
        ("transactions", .arr [.obj [("mutations", .arr [])]])]
/-- `B.json`: a diff seed on base `C`. -/
def diffFileB : JVal :=
  .obj [("type", .str "diff"), ("base_id", .str "C"),
        ("transactions", .arr [.obj [("mutations", .arr [])]])]
/-- `C.json`: a one-collection full seed. -/
def fullFileC : JVal := .obj [("users", .arr [.other true])]

/-- File system holding the three chain files. -/
def fsChain : Pth → Option JVal := fun p =>
  if p = pathA then some diffFileA
  else if p = pathB then some diffFileB
  else if p = pathC then some fullFileC
  else none

/-- The chain environment: no snapshot exists yet, the platform cooperates. -/
def envChain : Env := ⟨["root"], fsChain, httpAllOk, kubeNoSnaps⟩

/-! ## Concrete fixtures: single seed files and failure injections (C5) -/

/-- `/data/figma/U.json`, a full seed (snapshot name `figma-U`). -/
def pathU : Pth := ["data", "figma", "U.json"]

/-- File system holding only `U.json`. -/
def fsU : Pth → Option JVal := fun p => if p = pathU then some fullFileC else none

/-- Fully cooperative platform for `U.json`. -/
def envSeedOK : Env := ⟨["root"], fsU, httpAllOk, kubeNoSnaps⟩

/-- Same platform but every `transaction` POST fails with HTTP 400. -/
def envMutFail : Env :=
  ⟨["root"], fsU,
   fun n req =>
     match req with
     | .transaction _ _ => .ok ⟨400, .obj [], "bad"⟩
     | _ => httpAllOk n req,
   kubeNoSnaps⟩

/-- `/data/notion/N.json` with an indices file for app `notion`. -/
def pathN : Pth := ["data", "notion", "N.json"]

/-- Resolved path of `notion`'s indices file (`cwd / ../notion/app/indices.json`). -/
def pathIdx : Pth := ["notion", "app", "indices.json"]

/-- File system with `N.json` and the notion indices file. -/
def fsN : Pth → Option JVal := fun p =>
  if p = pathN then some fullFileC
  else if p = pathIdx then
    some (.obj [("indices", .arr [.obj [("collection", .str "pages")]])])
  else none

/-- Platform on which the `create-search-index` POST fails with HTTP 400. -/
def envIdxFail : Env :=
  ⟨["root"], fsN,
   fun n req =>
     match req with
     | .createSearchIndex _ _ => .ok ⟨400, .obj [], "bad"⟩
     | _ => httpAllOk n req,
   kubeNoSnaps⟩

/-- Platform on which the `create_seed` POST fails with a plain HTTP 400. -/
def envSeedFail : Env :=
  ⟨["root"], fsU,
   fun n req =>
     match req with
     | .createSeed _ _ => .ok ⟨400, .obj [], "boom"⟩
     | _ => httpAllOk n req,
   kubeNoSnaps⟩

/-- Platform that answers `create_seed` with the "running sessions" HTTP 400
while the snapshot does get created: the initial existence check (kubectl
call 0) still reports missing, every later check reports the snapshot
present. -/
def envRecovery : Env :=
  ⟨["root"], fsU,
   fun n req =>
     match req with
     | .createSeed _ _ => .ok ⟨400, .obj [], "cannot snapshot with running sessions"⟩
     | _ => httpAllOk n req,
   fun n req =>
     match req with
     | .getSnap _ => if n == 0 then ⟨1, ""⟩ else ⟨0, ""⟩
     | .getReady _ => ⟨0, "true"⟩
     | .deleteSnap _ => ⟨0, ""⟩⟩

/-! ## Concrete fixtures: `create_seed` recovery in isolation (C6) -/

/-- Platform for driving `create_seed` directly: the "running sessions" 400,
the primary snapshot present at once, the `meilisearch-` companion never
appearing. -/
def envRecovMeiliAbsent : Env :=
  ⟨["root"], fsU,
   fun n req =>
     match req with
     | .createSeed _ _ => .ok ⟨400, .obj [], "cannot snapshot with running sessions"⟩
     | _ => httpAllOk n req,
   fun _ req =>
     match req with
     | .getSnap n => if n = "meilisearch-snapX" then ⟨1, ""⟩ else ⟨0, ""⟩
     | .getReady _ => ⟨0, "true"⟩
     | .deleteSnap _ => ⟨0, ""⟩⟩

/-- As above but the snapshot never appears at all. -/
def envRecovNoSnap : Env :=
  ⟨["root"], fsU,
   fun n req =>
     match req with
     | .createSeed _ _ => .ok ⟨400, .obj [], "cannot snapshot with running sessions"⟩
     | _ => httpAllOk n req,
   fun _ _ => ⟨1, ""⟩⟩

/-! ## Concrete fixtures: index polling (C7) -/

/-- `search-index-status` always reports one index, `users`, as `failed`. -/
def envIdxFailedAlways : Env :=
  ⟨["root"], fsU,
   fun _ req =>
     match req with
     | .searchIndexStatus _ =>
       .ok ⟨200, .obj [("indexes", .arr
            [.obj [("collection", .str "users"), ("status", .str "failed")]])], ""⟩
     | _ => .ok ⟨200, .obj [], ""⟩,
   kubeNoSnaps⟩

/-- `search-index-status` always reports one index as `completed`. -/
def envIdxCompleted : Env :=
  ⟨["root"], fsU,
   fun _ req =>
     match req with
     | .searchIndexStatus _ =>
       .ok ⟨200, .obj [("indexes", .arr
            [.obj [("collection", .str "users"), ("status", .str "completed")]])], ""⟩
     | _ => .ok ⟨200, .obj [], ""⟩,
   kubeNoSnaps⟩

/-- The first four `search-index-status` transport attempts raise (so
`fetch_with_retry` exhausts its retries and re-raises), then the index is
reported `completed`: exercises the transient-error path of the polling loop. -/
def envIdxFlaky : Env :=
  ⟨["root"], fsU,
   fun n req =>
     match req with
     | .searchIndexStatus _ =>
       if n < 4 then .error "net down"
       else .ok ⟨200, .obj [("indexes", .arr
            [.obj [("collection", .str "users"), ("status", .str "completed")]])], ""⟩
     | _ => .ok ⟨200, .obj [], ""⟩,
   kubeNoSnaps⟩

/-! ## Event tags: a decidable-equality summary of a trace -/

/-- A decidable summary of one event: kind, subject name, numeric payload. -/
def eventTag : Event → String × String × Nat
  | .http (.startSession b) => ("startSession", b.getD "", 0)
  | .http (.status s) => ("statusGet", s, 0)
  | .http (.transaction s _) => ("transaction", s, 0)
  | .http (.createSearchIndex s _) => ("createSearchIndex", s, 0)
  | .http (.searchIndexStatus s) => ("searchIndexStatus", s, 0)
  | .http (.createSeed _ n) => ("createSeed", n, 0)
  | .http (.stop s) => ("stop", s, 0)
  | .httpFF (.createSeed _ n) => ("ffCreateSeed", n, 0)
  | .httpFF _ => ("ffOther", "", 0)
  | .kube (.getSnap n) => ("kubeGetSnap", n, 0)
  | .kube (.getReady n) => ("kubeGetReady", n, 0)
  | .kube (.deleteSnap n) => ("kubeDeleteSnap", n, 0)
  | .sleepMs d => ("sleep", "", d)

/-- The tags of a whole trace, in order. -/
def traceTags (evs : List Event) : List (String × String × Nat) :=
  evs.map eventTag

/-! ## Run summaries (forcing each run once) -/

/-- Summary of one `ensure_snapshot_exists` run: result value, error,
`create_seed` names in order, `stop` requests for session `"s1"`,
fire-and-forget posts, platform writes, and the kubectl requests naming
`watch`. -/
def ensureSummary (env : Env) (fuel : Nat) (p : Pth) (ow dry ff : Bool)
    (app ov : Option String) (s0 : STr) (watch : String) :
    Option String × Option Err × List String × Nat × Nat × Nat × List KubeReq :=
  match (ensure_snapshot_exists env fuel p ow dry ff app ov) s0 with
  | (r, s) =>
    (okOf r, errOf r, createSeedNames s.events, stopCountFor s.events "s1",
     ffSeedCount s.events, writeCount s.events, kubeReqsFor s.events watch)

/-- The `seed_id` and `session_already_ended` flag of a `create_seed`
result. -/
def seedResultTag (x : Except Err (JVal × Bool)) : Option (String × Bool) :=
  match x with
  | .ok (j, ended) =>
    some ((match jlookup j "seed_id" with | some (.str s) => s | _ => ""), ended)
  | .error _ => none

/-- Summary of one `create_seed` run from the empty state: result tag, error,
`stop` count, and the tags of the whole trace. -/
def createSeedSummary (env : Env) (sid name : String) :
    Option (String × Bool) × Option Err × Nat × List (String × String × Nat) :=
  match (create_seed env sid name) STr.init with
  | (r, s) => (seedResultTag r, errOf r, stopCountFor s.events sid, traceTags s.events)

/-- Summary of one `poll_index_creation_status` run from the empty state:
success, error, transport attempts, sleeps. -/
def pollIdxSummary (env : Env) (sid : String) (timeout interval : Nat) :
    Bool × Option Err × Nat × List Nat :=
  match (poll_index_creation_status env sid timeout interval) STr.init with
  | (r, s) => ((okOf r).isSome, errOf r, httpAttemptCount s.events, sleepsOf s.events)

set_option maxRecDepth 100000
set_option maxHeartbeats 16000000
set_option synthInstance.maxHeartbeats 2000000
set_option synthInstance.maxSize 2048

/-- Counterexample to C1 as stated: with `figma-C` already in
`processed_snapshots`, the resolver does return early for `C`, but it still
issues platform calls naming `figma-C` — the `snapshot_exists` kubectl check
of C's own frame (seed.py line 821 runs *before* the `processed_snapshots`
check of line 825) and the `snapshot_is_ready` check B's frame performs on its
base — so "without issuing any further platform call for it" is false. -/
theorem diff_chain_short_circuit_still_checks :
    (ensureSummary envChain 5 pathA false false false none none
        { STr.init with processed := ["figma-C"] } "figma-C").2.2.2.2.2.2
      = [.getSnap "figma-C", .getReady "figma-C"]
    ∧ ([KubeReq.getSnap "figma-C", .getReady "figma-C"] ≠ ([] : List KubeReq)) := by
  constructor
  · decide!
  · decide!

/-- C1 (amended: the short-circuit for an already-processed base issues no
snapshot-creation, deletion, session or mutation call for it; two read-only
kubectl checks naming it are still issued): (i) on the fresh 3-level chain
A → B → C the resolver issues the `create_seed` requests in the order C, B, A
and succeeds; (ii) when `figma-C` is already in `processed_snapshots` from an
earlier top-level call of the run, only B and A are created (in that order),
C's frame returns after its read-only existence check, and the only kubectl
requests naming `figma-C` are that check plus B's read-only readiness check. -/
theorem diff_chain_resolution_order :
    ensureSummary envChain 5 pathA false false false none none STr.init "figma-C"
      = (some "figma-A", none, ["figma-C", "figma-B", "figma-A"], 3, 0, 13,
         [.getSnap "figma-C", .getReady "figma-C"])
    ∧ ensureSummary envChain 5 pathA false false false none none
        { STr.init with processed := ["figma-C"] } "figma-C"
      = (some "figma-A", none, ["figma-B", "figma-A"], 2, 0, 8,
         [.getSnap "figma-C", .getReady "figma-C"]) := by
  constructor
  · decide!
  · decide!

/-- C5: exactly one `stop` request is issued for the session on every exit
path of the snapshot-creation block: (i) success; (ii) mutation-batch failure;
(iii) search-index-creation failure; (iv) `create_seed` failure; (v) the
"running sessions" recovery, where `create_seed` itself ends the session and
the cleanup block does not issue a second stop; (vi) zero stops under
fire-and-forget, which instead leaves one detached `create_seed` post.
Each scenario's summary lists: result, error, created seeds, stop count for
the session, fire-and-forget posts, platform writes, kubectl calls naming the
snapshot. -/
theorem session_always_stopped_once :
    ensureSummary envSeedOK 5 pathU false false false none none STr.init "figma-U"
      = (some "figma-U", none, ["figma-U"], 1, 0, 5, [.getSnap "figma-U"])
    ∧ ensureSummary envMutFail 5 pathU false false false none none STr.init "figma-U"
      = (none, some (.transactionFail 400), [], 1, 0, 3, [.getSnap "figma-U"])
    ∧ ensureSummary envIdxFail 5 pathN false false false none none STr.init "notion-N"
      = (none, some (.indexCreateFail 400), [], 1, 0, 5, [.getSnap "notion-N"])
    ∧ ensureSummary envSeedFail 5 pathU false false false none none STr.init "figma-U"
      = (none, some (.seedCreateFail 400 "boom"), ["figma-U"], 1, 0, 5, [.getSnap "figma-U"])
    ∧ ensureSummary envRecovery 5 pathU false false false none none STr.init "figma-U"
      = (some "figma-U", none, ["figma-U"], 1, 0, 5,
         [.getSnap "figma-U", .getSnap "figma-U"])
    ∧ ensureSummary envSeedOK 5 pathU false false true none none STr.init "figma-U"
      = (some "figma-U", none, [], 0, 1, 4, [.getSnap "figma-U"]) := by
  refine ⟨by decide!, by decide!, by decide!, by decide!, by decide!, by decide!⟩

/-- C6: on the "running sessions" HTTP 400 from the create-seed POST,
(i) if the snapshot is found by polling, the operation succeeds with the
session already ended: the `meilisearch-snapX` companion is polled for the
full 90 s (9 checks, 10 s apart) and its absence is only a warning, then the
session is polled until not `LOCKED` (the `statusGet`) and ended (the one
`stop`), and the result carries the seed id; (ii) if the snapshot never
appears within the 90 s of polling (9 checks), the call raises and no stop is
issued. -/
theorem create_seed_running_sessions_recovery :
    createSeedSummary envRecovMeiliAbsent "s1" "snapX"
      = (some ("snapX", true), none, 1,
         [("createSeed", "snapX", 0), ("kubeGetSnap", "snapX", 0)]
         ++ (List.replicate 9
              [("kubeGetSnap", "meilisearch-snapX", 0), ("sleep", "", 10000)]).flatten
         ++ [("statusGet", "s1", 0), ("stop", "s1", 0)])
    ∧ createSeedSummary envRecovNoSnap "s1" "snapX"
      = (none, some .seedNotCreated, 0,
         [("createSeed", "snapX", 0)]
         ++ (List.replicate 9
              [("kubeGetSnap", "snapX", 0), ("sleep", "", 10000)]).flatten) := by
  constructor
  · decide!
  · decide!

/-- C7 (the code contradicts the documented behaviour here): the loop body of
`poll_index_creation_status` does construct the
`RuntimeError("Index creation failed: users")` once no index is in progress or
pending and one is failed (first conjunct) — but that raise sits inside the
same `try` whose `except Exception` is meant for transient GET errors, so the
loop swallows it, sleeps and keeps polling until the deadline, and the caller
sees only the generic timeout error, which names no collections (second
conjunct).  The other behaviours of the claim hold: polling returns as soon
as no index is `in_progress`/`pending` and none failed (third), and
exceptions during the GET itself are swallowed and polling continues
(fourth: four transport failures exhaust the retry budget, the re-raised
error is caught, and the next poll succeeds). -/
theorem poll_index_failed_swallowed :
    errOf ((poll_index_body envIdxFailedAlways "s1") STr.init).1
      = some (.indexFailed "users")
    ∧ pollIdxSummary envIdxFailedAlways "s1" 20 5
      = (false, some (.indexTimeout 20), 4, [5000, 5000, 5000, 5000])
    ∧ pollIdxSummary envIdxCompleted "s1" 600 5 = (true, none, 1, [])
    ∧ pollIdxSummary envIdxFlaky "s1" 600 5 = (true, none, 5, [1000, 2000, 4000, 5000]) := by
  refine ⟨by decide!, by decide!, by decide!, by decide!⟩

/-! ## C3: the idempotent skip (snapshot exists, no overwrite) -/

/-- C3: when the named volume snapshot already exists on the platform
(`kubectl get` returns 0 at the frame's existence check) and `overwrite` is
false, `ensure_snapshot_exists` marks the name processed and returns it,
having issued exactly one read-only kubectl existence check and nothing else:
no deletion, no session start, no transaction, and no create-seed request.
Running the call again from the resulting state satisfies the same
hypotheses, so a second identical call likewise adds zero platform
mutations. -/
theorem ensure_idempotent_skip (env : Env) (fuel : Nat) (raw : Pth)
    (dry ff : Bool) (app ov : Option String) (s0 : STr)
    (hvis : resolvePth raw ∉ s0.visited)
    (hex : (env.kube s0.kubeN (.getSnap
        (snapshot_name_of raw (current_app_context_of (resolvePth raw) app) ov))).rc = 0) :
    (ensure_snapshot_exists env (fuel + 1) raw false dry ff app ov) s0 =
      (.ok (snapshot_name_of raw (current_app_context_of (resolvePth raw) app) ov),
       { s0 with
           kubeN := s0.kubeN + 1,
           events := s0.events ++ [.kube (.getSnap
             (snapshot_name_of raw (current_app_context_of (resolvePth raw) app) ov))],
           processed := setAdd s0.processed
             (snapshot_name_of raw (current_app_context_of (resolvePth raw) app) ov) }) := by
  have herase : (s0.visited ++ [resolvePth raw]).erase (resolvePth raw) = s0.visited := by
    rw [List.erase_append_right _ hvis, List.erase_cons_head, List.append_nil]
  simp only [ensure_snapshot_exists, M.bind_app, M.get_app]
  rw [if_neg hvis]
  simp only [M.bind_app, M.modify_app, M.get_app, M.pure_app, M.throw_app,
    snapshot_exists, kubeCall]
  simp only [hex, beq_self_eq_true]
  by_cases hmem :
      snapshot_name_of raw (current_app_context_of (resolvePth raw) app) ov ∈ s0.processed
  · rw [if_pos hmem]
    simp only [M.bind_app, M.modify_app, M.pure_app]
    simp [herase, setAdd, hmem]
  · rw [if_neg hmem]
    simp only [Bool.true_and, Bool.not_false, if_true, M.bind_app, M.modify_app, M.pure_app]
    simp [herase, setAdd, hmem]

/-- kubectl stub on which every snapshot exists and is ready. -/
def kubeAllSnaps : Nat → KubeReq → KubeResp := fun _ _ => ⟨0, "true"⟩

/-- Environment in which `figma-U` already exists on the platform. -/
def envSnapExists : Env := ⟨["root"], fsU, httpAllOk, kubeAllSnaps⟩

/-- Witness for `ensure_idempotent_skip`: with `figma-U` already on the
platform, the run returns the name after the single existence check. -/
theorem ensure_idempotent_skip_witness :
    (ensure_snapshot_exists envSnapExists 5 pathU false false false none none) STr.init =
      (.ok "figma-U",
       { STr.init with kubeN := 1, events := [.kube (.getSnap "figma-U")],
                       processed := ["figma-U"] }) :=
  ensure_idempotent_skip envSnapExists 4 pathU false false none none STr.init
    (by decide) rfl

/-! ## C9: dry-run performs no platform mutation -/

theorem writeCount_append_events (a b : List Event) :
    writeCount (a ++ b) = writeCount a + writeCount b := by
  simp [writeCount, List.filter_append]

theorem writeCount_snoc_read (l : List Event) (e : Event) (he : e.isWrite = false) :
    writeCount (l ++ [e]) = writeCount l := by
  simp [writeCount, List.filter_append, List.filter_cons, he]

/-- The dry-run frame property: with `dry_run` set, a resolver run — whatever
the environment, flags, starting state and recursion depth — adds no platform
write to the trace. -/
theorem dry_run_writes_preserved (env : Env) :
    ∀ (fuel : Nat) (raw : Pth) (ow ff : Bool) (app ov : Option String) (s0 : STr),
      writeCount ((ensure_snapshot_exists env fuel raw ow true ff app ov) s0).2.events
        = writeCount s0.events := by
  intro fuel
  induction fuel with
  | zero => intro raw ow ff app ov s0; rfl
  | succ fuel ih =>
    intro raw ow ff app ov s0
    have IH2 : ∀ (rq : Pth) (a₀ ovr : Option String) (st : STr) (r : Except Err String)
        (s₃ : STr),
        ensure_snapshot_exists env fuel rq ow true ff a₀ ovr st = (r, s₃) →
        writeCount s₃.events = writeCount st.events := by
      intro rq a₀ ovr st r s₃ heq
      have h := ih rq ow ff a₀ ovr st
      rw [heq] at h
      exact h
    simp only [ensure_snapshot_exists, M.bind_app, M.get_app]
    by_cases hvis : resolvePth raw ∈ s0.visited
    · rw [if_pos hvis]; rfl
    · rw [if_neg hvis]
      simp only [M.bind_app, M.modify_app, M.get_app, M.pure_app, M.throw_app,
        snapshot_exists, kubeCall, delete_snapshot, if_true]
      split
      · simp only [M.bind_app, M.modify_app, M.pure_app]
        exact writeCount_snoc_read _ _ rfl
      · split
        · simp only [M.bind_app, M.modify_app, M.pure_app]
          exact writeCount_snoc_read _ _ rfl
        · split
          · simp only [M.bind_app, M.pure_app, kubeCall]
            split
            · -- meilisearch companion also present (dry deletion is a no-op)
              cases hfs : env.fs (resolvePth raw) with
              | none =>
                simp [M.bind_app, M.throw, M.modify_app, M.pure_app, writeCount, List.filter_append, List.filter_cons, Event.isWrite]
              | some data =>
                simp only [M.bind_app, M.pure_app]
                split
                · cases hbid : jlookup data "base_id" with
                  | none =>
                    simp [M.bind_app, M.throw, M.modify_app, M.pure_app, writeCount, List.filter_append, List.filter_cons, Event.isWrite]
                  | some v =>
                    cases v with
                    | str b =>
                      simp only [M.bind_app, M.pure_app]
                      cases hres : resolve_base_file_path env.cwd raw b with
                      | error e =>
                        simp [M.bind_app, M.throw, M.modify_app, M.pure_app, writeCount, List.filter_append, List.filter_cons, Event.isWrite]
                      | ok rq =>
                        simp only [M.bind_app, M.modify_app, M.pure_app]
                        split
                        next a s₃ heq =>
                          rw [IH2 _ _ _ _ _ _ heq]
                          simp [M.bind_app, M.throw, M.modify_app, M.pure_app, writeCount, List.filter_append, List.filter_cons, Event.isWrite]
                        next e s₃ heq =>
                          rw [IH2 _ _ _ _ _ _ heq]
                          simp [M.bind_app, M.throw, M.modify_app, M.pure_app, writeCount, List.filter_append, List.filter_cons, Event.isWrite]
                    | arr l =>
                      simp [M.bind_app, M.throw, M.modify_app, M.pure_app, writeCount, List.filter_append, List.filter_cons, Event.isWrite]
                    | obj f =>
                      simp [M.bind_app, M.throw, M.modify_app, M.pure_app, writeCount, List.filter_append, List.filter_cons, Event.isWrite]
                    | other tb =>
                      simp [M.bind_app, M.throw, M.modify_app, M.pure_app, writeCount, List.filter_append, List.filter_cons, Event.isWrite]
                · simp [M.bind_app, M.throw, M.modify_app, M.pure_app, writeCount, List.filter_append, List.filter_cons, Event.isWrite]
            · -- companion absent
              cases hfs : env.fs (resolvePth raw) with
              | none =>
                simp [M.bind_app, M.throw, M.modify_app, M.pure_app, writeCount, List.filter_append, List.filter_cons, Event.isWrite]
              | some data =>
                simp only [M.bind_app, M.pure_app]
                split
                · cases hbid : jlookup data "base_id" with
                  | none =>
                    simp [M.bind_app, M.throw, M.modify_app, M.pure_app, writeCount, List.filter_append, List.filter_cons, Event.isWrite]
                  | some v =>
                    cases v with
                    | str b =>
                      simp only [M.bind_app, M.pure_app]
                      cases hres : resolve_base_file_path env.cwd raw b with
                      | error e =>
                        simp [M.bind_app, M.throw, M.modify_app, M.pure_app, writeCount, List.filter_append, List.filter_cons, Event.isWrite]
                      | ok rq =>
                        simp only [M.bind_app, M.modify_app, M.pure_app]
                        split
                        next a s₃ heq =>
                          rw [IH2 _ _ _ _ _ _ heq]
                          simp [M.bind_app, M.throw, M.modify_app, M.pure_app, writeCount, List.filter_append, List.filter_cons, Event.isWrite]
                        next e s₃ heq =>
                          rw [IH2 _ _ _ _ _ _ heq]
                          simp [M.bind_app, M.throw, M.modify_app, M.pure_app, writeCount, List.filter_append, List.filter_cons, Event.isWrite]
                    | arr l =>
                      simp [M.bind_app, M.throw, M.modify_app, M.pure_app, writeCount, List.filter_append, List.filter_cons, Event.isWrite]
                    | obj f =>
                      simp [M.bind_app, M.throw, M.modify_app, M.pure_app, writeCount, List.filter_append, List.filter_cons, Event.isWrite]
                    | other tb =>
                      simp [M.bind_app, M.throw, M.modify_app, M.pure_app, writeCount, List.filter_append, List.filter_cons, Event.isWrite]
                · simp [M.bind_app, M.throw, M.modify_app, M.pure_app, writeCount, List.filter_append, List.filter_cons, Event.isWrite]
          · -- no pre-existing snapshot to delete
            cases hfs : env.fs (resolvePth raw) with
            | none =>
              simp [M.bind_app, M.throw, M.modify_app, M.pure_app, writeCount, List.filter_append, List.filter_cons, Event.isWrite]
            | some data =>
              simp only [M.bind_app, M.pure_app]
              split
              · cases hbid : jlookup data "base_id" with
                | none =>
                  simp [M.bind_app, M.throw, M.modify_app, M.pure_app, writeCount, List.filter_append, List.filter_cons, Event.isWrite]
                | some v =>
                  cases v with
                  | str b =>
                    simp only [M.bind_app, M.pure_app]
                    cases hres : resolve_base_file_path env.cwd raw b with
                    | error e =>
                      simp [M.bind_app, M.throw, M.modify_app, M.pure_app, writeCount, List.filter_append, List.filter_cons, Event.isWrite]
                    | ok rq =>
                      simp only [M.bind_app, M.modify_app, M.pure_app]
                      split
                      next a s₃ heq =>
                        rw [IH2 _ _ _ _ _ _ heq]
                        simp [M.bind_app, M.throw, M.modify_app, M.pure_app, writeCount, List.filter_append, List.filter_cons, Event.isWrite]
                      next e s₃ heq =>
                        rw [IH2 _ _ _ _ _ _ heq]
                        simp [M.bind_app, M.throw, M.modify_app, M.pure_app, writeCount, List.filter_append, List.filter_cons, Event.isWrite]
                  | arr l =>
                    simp [M.bind_app, M.throw, M.modify_app, M.pure_app, writeCount, List.filter_append, List.filter_cons, Event.isWrite]
                  | obj f =>
                    simp [M.bind_app, M.throw, M.modify_app, M.pure_app, writeCount, List.filter_append, List.filter_cons, Event.isWrite]
                  | other tb =>
                    simp [M.bind_app, M.throw, M.modify_app, M.pure_app, writeCount, List.filter_append, List.filter_cons, Event.isWrite]
              · simp [M.bind_app, M.throw, M.modify_app, M.pure_app, writeCount, List.filter_append, List.filter_cons, Event.isWrite]

/-- `B.json` variant whose base points back to `A` (a 2-cycle with
`diffFileA`). -/
def diffFileBA : JVal := .obj [("type", .str "diff"), ("base_id", .str "A")]

/-- File system with the circular chain A → B → A. -/
def fsCycle : Pth → Option JVal := fun p =>
  if p = pathA then some diffFileA
  else if p = pathB then some diffFileBA
  else none

/-- Environment with the circular chain. -/
def envCycle : Env := ⟨["root"], fsCycle, httpAllOk, kubeNoSnaps⟩

/-- File system holding only `A.json`, whose base file `B.json` is missing. -/
def fsMissing : Pth → Option JVal := fun p =>
  if p = pathA then some diffFileA else none

/-- Environment with the missing base file. -/
def envMissing : Env := ⟨["root"], fsMissing, httpAllOk, kubeNoSnaps⟩

/-- C9: with `dry_run` set, `ensure_snapshot_exists` performs no platform
mutation on any input — no deletion, session, transaction or create-seed
request is added to the trace, over every environment, recursion depth, flag
combination and starting state — while the non-mutating steps still execute,
so a circular dependency chain still raises `CircularDependencyError` (with
zero writes) and a missing base file still raises its file-not-found error in
dry-run mode. -/
theorem dry_run_no_platform_mutation :
    (∀ (env : Env) (fuel : Nat) (raw : Pth) (ow ff : Bool) (app ov : Option String)
        (s0 : STr),
        writeCount ((ensure_snapshot_exists env fuel raw ow true ff app ov) s0).2.events
          = writeCount s0.events)
    ∧ errOf ((ensure_snapshot_exists envCycle 3 pathA false true false none none) STr.init).1
        = some (.circular "/data/figma/A.json")
    ∧ writeCount
        ((ensure_snapshot_exists envCycle 3 pathA false true false none none) STr.init).2.events
        = 0
    ∧ errOf ((ensure_snapshot_exists envMissing 3 pathA false true false none none) STr.init).1
        = some (.fileNotFound "/data/figma/B.json") := by
  refine ⟨fun env => dry_run_writes_preserved env, by decide, by decide, by decide⟩

/-! ## C2: cycle detection -/

/-- A path component that survives `resolvePth` untouched. -/
def cleanComp (c : String) : Bool :=
  !(c == "..") && !(c == ".") && !(c == "")

theorem resolveStep_clean (acc : Pth) (c : String) (h : cleanComp c = true) :
    resolveStep acc c = acc ++ [c] := by
  simp only [cleanComp, Bool.and_eq_true, Bool.not_eq_eq_eq_not, Bool.not_true,
    beq_eq_false_iff_ne, ne_eq] at h
  simp [resolveStep, h.1.1, h.1.2, h.2]

theorem foldl_resolveStep_clean :
    ∀ (p : List String) (acc : Pth), (∀ c ∈ p, cleanComp c = true) →
      p.foldl resolveStep acc = acc ++ p := by
  intro p
  induction p with
  | nil => intro acc _; simp
  | cons c rest ih =>
    intro acc h
    rw [List.foldl_cons, resolveStep_clean acc c (h c (by simp)),
      ih (acc ++ [c]) (fun x hx => h x (by simp [hx]))]
    simp

theorem resolvePth_all_clean :
    ∀ (p : List String) (acc : Pth), (∀ c ∈ acc, cleanComp c = true) →
      ∀ c ∈ p.foldl resolveStep acc, cleanComp c = true := by
  intro p
  induction p with
  | nil => intro acc h; simpa using h
  | cons c rest ih =>
    intro acc h
    rw [List.foldl_cons]
    apply ih
    intro x hx
    by_cases h1 : c = ".."
    · simp only [resolveStep, if_pos h1] at hx
      exact h x (List.dropLast_subset _ hx)
    · by_cases h2 : c = "." ∨ c = ""
      · simp only [resolveStep, if_neg h1, if_pos h2] at hx
        exact h x hx
      · simp only [resolveStep, if_neg h1, if_neg h2] at hx
        rcases List.mem_append.mp hx with hx | hx
        · exact h x hx
        · push_neg at h2
          simp only [List.mem_singleton] at hx
          subst hx
          simp [cleanComp, h1, h2.1, h2.2]

/-- `Path.resolve()` is idempotent. -/
theorem resolvePth_idem (p : Pth) : resolvePth (resolvePth p) = resolvePth p := by
  have hclean : ∀ c ∈ resolvePth p, cleanComp c = true :=
    resolvePth_all_clean p [] (by simp)
  show (resolvePth p).foldl resolveStep [] = resolvePth p
  rw [foldl_resolveStep_clean (resolvePth p) [] hclean]
  simp

/-- `resolve_base_file_path` depends on its `json_path` only through
`Path.resolve()` (seed.py line 127 resolves before taking the parent). -/
theorem resolve_base_congr (cwd : Pth) (r₁ r₂ : Pth) (b : String)
    (h : resolvePth r₁ = resolvePth r₂) :
    resolve_base_file_path cwd r₁ b = resolve_base_file_path cwd r₂ b := by
  simp [resolve_base_file_path, h]

/-- One link of a diff chain between already-resolved paths: `p`'s file is a
diff whose `base_id` resolves to the file whose resolved path is `q`. -/
def diffLinkB (env : Env) (p q : Pth) : Bool :=
  match env.fs p with
  | some d =>
    is_diff_seed_file d &&
    (match jlookup d "base_id" with
     | some (.str b) =>
       (match resolve_base_file_path env.cwd p b with
        | .ok rawq => resolvePth rawq == q
        | .error _ => false)
     | _ => false)
  | none => false

/-- A list of resolved paths forming a consecutive diff chain. -/
def diffChainB (env : Env) : List Pth → Bool
  | [] => true
  | [_] => true
  | p :: q :: rest => diffLinkB env p q && diffChainB env (q :: rest)


/-- C2 (amended: assuming no snapshot of the chain exists on the platform,
nothing is marked processed, and `overwrite` is false): following a diff
chain of resolved paths whose last element closes a loop — it is already on
the recursion stack (`visited`) or appears earlier in the chain —
`ensure_snapshot_exists` raises `CircularDependencyError` and performs no
platform write: no snapshot deletion, no session start, no mutation batch,
and no snapshot-creation request. -/
theorem cycle_detected_no_writes (env : Env) :
    ∀ (ps : List Pth) (p : Pth) (fuel : Nat) (raw : Pth) (lastp : Pth)
      (dry ff : Bool) (app ov : Option String) (s0 : STr),
      (∀ (n : Nat) (nm : String), (env.kube n (.getSnap nm)).rc ≠ 0) →
      s0.processed = [] →
      diffChainB env (p :: ps) = true →
      resolvePth raw = p →
      (p :: ps).getLast? = some lastp →
      (lastp ∈ s0.visited ∨ lastp ∈ (p :: ps).dropLast) →
      (p :: ps).dropLast.Nodup →
      (∀ x ∈ (p :: ps).dropLast, x ∉ s0.visited) →
      (p :: ps).length ≤ fuel →
      ∃ (cp : String) (s₃ : STr),
        (ensure_snapshot_exists env fuel raw false dry ff app ov) s0
          = (.error (.circular cp), s₃)
        ∧ writeCount s₃.events = writeCount s0.events := by
  intro ps
  induction ps with
  | nil =>
    intro p fuel raw lastp dry ff app ov s0 hk hproc hch hraw hlast hloop hnd hnv hlen
    have hlp : lastp = p := by
      simp only [List.getLast?_singleton, Option.some.injEq] at hlast
      exact hlast.symm
    subst lastp
    have hpv : p ∈ s0.visited := by
      rcases hloop with h | h
      · exact h
      · simp at h
    cases fuel with
    | zero => simp only [List.length_cons, List.length_nil] at hlen; omega
    | succ f =>
      refine ⟨renderPth p, s0, ?_, rfl⟩
      simp only [ensure_snapshot_exists, M.bind_app, M.get_app, hraw]
      rw [if_pos hpv]
      rfl
  | cons q rest ihp =>
    intro p fuel raw lastp dry ff app ov s0 hk hproc hch hraw hlast hloop hnd hnv hlen
    have hch' := hch
    simp only [diffChainB, Bool.and_eq_true] at hch'
    obtain ⟨hlink, hch₂⟩ := hch'
    rw [diffLinkB] at hlink
    cases hfs : env.fs p with
    | none => rw [hfs] at hlink; simp at hlink
    | some d =>
    rw [hfs] at hlink
    simp only [Bool.and_eq_true] at hlink
    obtain ⟨hdiff, hrest⟩ := hlink
    cases hbid : jlookup d "base_id" with
    | none => rw [hbid] at hrest; simp at hrest
    | some v =>
    rw [hbid] at hrest
    cases v with
    | arr l => simp at hrest
    | obj fs => simp at hrest
    | other tb => simp at hrest
    | str b =>
    cases hres : resolve_base_file_path env.cwd p b with
    | error e => simp [hres] at hrest
    | ok rawq =>
    simp only [hres] at hrest
    have hq : resolvePth rawq = q := by simpa using hrest
    have hpp : resolvePth p = p := by rw [← hraw, resolvePth_idem]
    have hdl : (p :: q :: rest).dropLast = p :: (q :: rest).dropLast := rfl
    have hpv : p ∉ s0.visited := by
      apply hnv p
      rw [hdl]
      exact List.mem_cons_self _ _
    cases fuel with
    | zero => simp only [List.length_cons] at hlen; omega
    | succ f =>
    have hih := ihp q f rawq lastp dry ff (some (current_app_context_of p app)) none
        { s0 with kubeN := s0.kubeN + 1,
                  events := s0.events ++
                    [.kube (.getSnap (snapshot_name_of raw
                      (current_app_context_of p app) ov))],
                  visited := s0.visited ++ [p],
                  processed := [] }
        hk rfl hch₂ hq
        (by rwa [List.getLast?_cons_cons] at hlast)
        (by
          rcases hloop with h | h
          · exact Or.inl (List.mem_append_left _ h)
          · rw [hdl] at h
            rcases List.mem_cons.mp h with h | h
            · subst h
              exact Or.inl (List.mem_append_right _ (List.mem_singleton_self _))
            · exact Or.inr h)
        (by rw [hdl] at hnd; exact (List.nodup_cons.mp hnd).2)
        (by
          intro x hx hmem
          rcases List.mem_append.mp hmem with hmem | hmem
          · exact hnv x (by rw [hdl]; exact List.mem_cons_of_mem _ hx) hmem
          · have hxp : x = p := by simpa using hmem
            subst hxp
            rw [hdl] at hnd
            exact (List.nodup_cons.mp hnd).1 hx)
        (by simp only [List.length_cons] at hlen ⊢; omega)
    obtain ⟨cp, s₃, hrec, hwc⟩ := hih
    refine ⟨cp, s₃, ?_, ?_⟩
    · have hres' : resolve_base_file_path env.cwd raw b = .ok rawq := by
        rw [resolve_base_congr env.cwd raw p b (by rw [hraw, hpp]), hres]
      have hk0 : ((env.kube s0.kubeN (KubeReq.getSnap
          (snapshot_name_of raw (current_app_context_of p app) ov))).rc == 0) = false :=
        beq_eq_false_iff_ne.mpr (hk _ _)
      simp only [ensure_snapshot_exists, M.bind_app, M.get_app, hraw]
      rw [if_neg hpv]
      simp only [snapshot_exists, kubeCall, M.bind_app]
      simp only [M.modify_app, M.get_app, M.pure_app, M.throw_app]
      simp only [hproc, hk0, Bool.not_false, Bool.and_true, Bool.and_false,
        List.not_mem_nil, Bool.false_eq_true, ite_false]
      rw [hfs]
      simp only [M.bind_app, M.pure_app]
      rw [if_pos hdiff, hbid]
      simp only [M.bind_app, M.pure_app]
      rw [hres']
      simp only [M.bind_app, M.modify_app, M.pure_app]
      rw [hrec]
    · rw [hwc]
      exact writeCount_snoc_read _ _ rfl

theorem cycle_detected_no_writes_witness :
    ∃ (cp : String) (s₃ : STr),
      (ensure_snapshot_exists envCycle 3 pathA false false false none none) STr.init
        = (.error (.circular cp), s₃)
      ∧ writeCount s₃.events = writeCount STr.init.events :=
  cycle_detected_no_writes envCycle [pathB, pathA] pathA 3 pathA pathA
    false false none none STr.init
    (fun _ _ => Nat.one_ne_zero) rfl (by decide) (by decide) (by decide)
    (by decide) (by decide) (by decide) (by decide)

/-- `A.json` as a diff seed whose `base_id` is `A` itself: the shortest
circular chain. -/
def diffFileAA : JVal := .obj [("type", .str "diff"), ("base_id", .str "A")]

/-- File system holding only the self-referential `A.json`. -/
def fsSelfLoop : Pth → Option JVal := fun p =>
  if p = pathA then some diffFileAA else none

/-- The self-loop chain A → A on a platform that already has every
snapshot. -/
def envSelfCycle : Env := ⟨["root"], fsSelfLoop, httpAllOk, kubeAllSnaps⟩

/-- Counterexample to the unqualified claim: on the circular chain A → A,
when the platform already reports a snapshot named for A and `overwrite` is
false, `ensure_snapshot_exists` returns success without ever detecting the
cycle (the existence check short-circuits before the recursive descent); and
with `overwrite` true it does raise `CircularDependencyError`, but only
after two platform deletions — the snapshot and its meilisearch companion —
not "no platform writes". -/
theorem cycle_masked_by_existing_snapshot :
    okOf ((ensure_snapshot_exists envSelfCycle 2 pathA false false false none none)
        STr.init).1 = some "figma-A"
    ∧ errOf ((ensure_snapshot_exists envSelfCycle 2 pathA true false false none none)
        STr.init).1 = some (.circular "/data/figma/A.json")
    ∧ writeCount ((ensure_snapshot_exists envSelfCycle 2 pathA true false false none none)
        STr.init).2.events = 2 := by
  refine ⟨by decide!, by decide!, by decide!⟩
